import Mathlib

/-!
Verification of the TLS-Chameleon fingerprint-profile-driven request engine.

This file is a shallow embedding, in Lean 4, of the parts of the
`tls_chameleon` Python package that the verified claims are about:

* `client.py` — the `TLSChameleon` session class: construction, site presets,
  header morphing (`_morph_headers`), block classification (`_is_block`),
  profile/proxy rotation (`_rotate_profile`, `_rotate_proxy`, `_current_proxy`),
  WAF adaptation (`_check_waf_and_adapt`) and the retry loop of `request`.
* `fingerprint_gallery.py` — the profile catalog (`FINGERPRINT_GALLERY`) and
  `randomize_profile`.
* `profiles.py` — the legacy `PROFILES` table and `DEFAULT_PROFILE`.

Python strings are modeled as Lean `String` (list-of-char backed); the string
operations used by the source (`str.lower`, per-word `str.capitalize`,
substring membership `in`) are defined below character-by-character, matching
CPython's behavior on the ASCII data that flows through this code.  Python
dicts are modeled as insertion-ordered association lists with the usual
unique-key discipline; `d[k] = v` replaces in place or appends.  Randomness
(`random.choice`, `random.randint`) is modeled by explicit oracle arguments
ranging over all draws the source could make.  Timing (`time.sleep`, ghost
mode delays) and the network engine objects (curl/httpx sessions) carry no
state that the claims mention and are elided; the transport itself is an
oracle from attempt number to either a response or a raised error.
-/

/-! ### Character-level facts about ASCII case mapping -/

theorem char_toNat_ofNat (n : Nat) (h : n < 55296) : (Char.ofNat n).toNat = n := by
  rw [Char.ofNat, dif_pos (Or.inl h)]
  rfl

theorem char_toLower_def (c : Char) :
    c.toLower = if c.toNat ≥ 65 ∧ c.toNat ≤ 90 then Char.ofNat (c.toNat + 32) else c := rfl

theorem char_toUpper_def (c : Char) :
    c.toUpper = if c.toNat ≥ 97 ∧ c.toNat ≤ 122 then Char.ofNat (c.toNat - 32) else c := rfl

theorem char_toLower_toLower (c : Char) : c.toLower.toLower = c.toLower := by
  rw [char_toLower_def c]
  by_cases h : c.toNat ≥ 65 ∧ c.toNat ≤ 90
  · rw [if_pos h, char_toLower_def, char_toNat_ofNat (c.toNat + 32) (by omega),
      if_neg (show ¬((c.toNat + 32) ≥ 65 ∧ (c.toNat + 32) ≤ 90) by omega)]
  · rw [if_neg h, char_toLower_def, if_neg h]

theorem char_toUpper_toLower (c : Char) : c.toLower.toUpper = c.toUpper := by
  rw [char_toLower_def c]
  by_cases h : c.toNat ≥ 65 ∧ c.toNat ≤ 90
  · rw [if_pos h, char_toUpper_def, char_toNat_ofNat (c.toNat + 32) (by omega),
      if_pos (show (c.toNat + 32) ≥ 97 ∧ (c.toNat + 32) ≤ 122 by omega),
      char_toUpper_def c, if_neg (show ¬(c.toNat ≥ 97 ∧ c.toNat ≤ 122) by omega)]
    rw [show c.toNat + 32 - 32 = c.toNat by omega, Char.ofNat_toNat]
  · rw [if_neg h]

theorem char_toLower_toUpper (c : Char) : c.toUpper.toLower = c.toLower := by
  rw [char_toUpper_def c]
  by_cases h : c.toNat ≥ 97 ∧ c.toNat ≤ 122
  · rw [if_pos h, char_toLower_def, char_toNat_ofNat (c.toNat - 32) (by omega),
      if_pos (show (c.toNat - 32) ≥ 65 ∧ (c.toNat - 32) ≤ 90 by omega),
      char_toLower_def c, if_neg (show ¬(c.toNat ≥ 65 ∧ c.toNat ≤ 90) by omega)]
    rw [show c.toNat - 32 + 32 = c.toNat by omega, Char.ofNat_toNat]
  · rw [if_neg h]

theorem char_toLower_eq_dash_iff (c : Char) : c.toLower = '-' ↔ c = '-' := by
  constructor
  · intro h
    rw [char_toLower_def] at h
    by_cases hc : c.toNat ≥ 65 ∧ c.toNat ≤ 90
    · rw [if_pos hc] at h
      have h2 := congrArg Char.toNat h
      rw [char_toNat_ofNat (c.toNat + 32) (by omega)] at h2
      have hd : ('-' : Char).toNat = 45 := rfl
      omega
    · rwa [if_neg hc] at h
  · intro h
    subst h
    rfl

/-! ### Python string primitives

`pyLower` models `str.lower()`, `pyTitle` models the title-casing closure in
`_morph_headers` (`"-".join(word.capitalize() for word in k.split("-"))`),
written as a single pass: a character at the start of a hyphen-delimited word
is uppercased, every other character is lowercased.  `pyContainsB` models the
Python substring test `needle in hay`. -/

def pyLowerL (l : List Char) : List Char := l.map Char.toLower

def pyLower (s : String) : String := ⟨pyLowerL s.data⟩

def pyTitleL : Bool → List Char → List Char
  | _, [] => []
  | atStart, c :: rest =>
    (if atStart then c.toUpper else c.toLower) :: pyTitleL (c == '-') rest

def pyTitle (s : String) : String := ⟨pyTitleL true s.data⟩

theorem pyLowerL_idem (l : List Char) : pyLowerL (pyLowerL l) = pyLowerL l := by
  simp only [pyLowerL, List.map_map]
  exact List.map_congr_left fun c _ => char_toLower_toLower c

theorem pyTitleL_pyLowerL (b : Bool) (l : List Char) :
    pyTitleL b (pyLowerL l) = pyTitleL b l := by
  induction l generalizing b with
  | nil => rfl
  | cons c rest ih =>
    have hbeq : (c.toLower == '-') = (c == '-') := by
      cases hcd : c == '-' with
      | true =>
        rw [beq_iff_eq] at hcd
        subst hcd
        rfl
      | false =>
        rw [beq_eq_false_iff_ne] at hcd
        rw [beq_eq_false_iff_ne]
        exact fun h => hcd ((char_toLower_eq_dash_iff c).mp h)
    have ih2 := ih (c == '-')
    simp only [pyLowerL] at ih2 ⊢
    simp only [List.map_cons, pyTitleL, char_toUpper_toLower, char_toLower_toLower, hbeq, ih2]

theorem pyLowerL_pyTitleL (b : Bool) (l : List Char) :
    pyLowerL (pyTitleL b l) = pyLowerL l := by
  induction l generalizing b with
  | nil => rfl
  | cons c rest ih =>
    have ih2 := ih (c == '-')
    simp only [pyLowerL] at ih2 ⊢
    simp only [pyTitleL, List.map_cons, ih2]
    cases b <;> simp [char_toLower_toUpper, char_toLower_toLower]

theorem string_mk_inj {a b : List Char} (h : String.mk a = String.mk b) : a = b :=
  congrArg String.data h

theorem pyLower_pyTitle (s : String) : pyLower (pyTitle s) = pyLower s := by
  simp only [pyLower, pyTitle, pyLowerL_pyTitleL]

theorem pyTitle_pyLower (s : String) : pyTitle (pyLower s) = pyTitle s := by
  simp only [pyTitle, pyLower, pyTitleL_pyLowerL]

theorem pyLower_idem (s : String) : pyLower (pyLower s) = pyLower s := by
  simp only [pyLower, pyLowerL_idem]

theorem pyTitle_idem (s : String) : pyTitle (pyTitle s) = pyTitle s := by
  have h1 := pyTitle_pyLower (pyTitle s)
  rw [pyLower_pyTitle] at h1
  rw [← h1, pyTitle_pyLower]

theorem pyTitle_eq_iff_pyLower_eq (k₁ k₂ : String) :
    pyTitle k₁ = pyTitle k₂ ↔ pyLower k₁ = pyLower k₂ := by
  constructor
  · intro h
    have := congrArg pyLower h
    rwa [pyLower_pyTitle, pyLower_pyTitle] at this
  · intro h
    have := congrArg pyTitle h
    rwa [pyTitle_pyLower, pyTitle_pyLower] at this

/-- Substring-prefix test at the head of a character list. -/
def isPrefixCh : List Char → List Char → Bool
  | [], _ => true
  | _ :: _, [] => false
  | a :: as, b :: bs => a == b && isPrefixCh as bs

/-- Python substring membership `needle in hay` on character lists. -/
def containsCh (needle : List Char) : List Char → Bool
  | [] => isPrefixCh needle []
  | c :: t => isPrefixCh needle (c :: t) || containsCh needle t

/-- Python substring membership `needle in hay` on strings. -/
def pyContainsB (needle hay : String) : Bool := containsCh needle.data hay.data

/-! ### The `case_key` closure of `_morph_headers`

`case_key(k)` lowercases under mode `"lower"`, title-cases each
hyphen-delimited segment under mode `"title"`, and is the identity otherwise.
Every profile shipped in the catalog uses mode `"lower"` or `"title"`
(`catalog_header_case_canonical` below). -/

def caseKey (mode : String) (k : String) : String :=
  if mode = "lower" then pyLower k
  else if mode = "title" then pyTitle k
  else k

/-- Case modes actually occurring in the catalog. -/
def canonicalMode (mode : String) : Prop := mode = "lower" ∨ mode = "title"

theorem caseKey_lower (k : String) : caseKey "lower" k = pyLower k := rfl

theorem caseKey_title (k : String) : caseKey "title" k = pyTitle k := rfl

theorem caseKey_eq_iff (mode : String) (hm : canonicalMode mode) (k₁ k₂ : String) :
    caseKey mode k₁ = caseKey mode k₂ ↔ pyLower k₁ = pyLower k₂ := by
  cases hm with
  | inl h =>
    subst h
    rw [caseKey_lower, caseKey_lower]
  | inr h =>
    subst h
    rw [caseKey_title, caseKey_title]
    exact pyTitle_eq_iff_pyLower_eq k₁ k₂

theorem pyLower_caseKey (mode : String) (hm : canonicalMode mode) (k : String) :
    pyLower (caseKey mode k) = pyLower k := by
  cases hm with
  | inl h =>
    subst h
    rw [caseKey_lower, pyLower_idem]
  | inr h =>
    subst h
    rw [caseKey_title, pyLower_pyTitle]

theorem caseKey_idem (mode : String) (hm : canonicalMode mode) (k : String) :
    caseKey mode (caseKey mode k) = caseKey mode k := by
  cases hm with
  | inl h =>
    subst h
    rw [caseKey_lower, caseKey_lower, pyLower_idem]
  | inr h =>
    subst h
    rw [caseKey_title, caseKey_title, pyTitle_idem]

/-! ### Python dicts as insertion-ordered association lists

`dictSet d k v` is `d[k] = v`: it replaces the value in place when the key is
present (Python dict keys are unique, so replacing the first occurrence is
exact) and appends `(k, v)` otherwise.  `dictUpdate d other` is
`d.update(other)`.  `dictLookup` is `d.get(k)`; `dictKeys` is `list(d)`. -/

abbrev PyDict := List (String × String)

def dictKeys (d : PyDict) : List String := d.map Prod.fst

def dictSet : PyDict → String → String → PyDict
  | [], k, v => [(k, v)]
  | p :: rest, k, v => if p.1 = k then (k, v) :: rest else p :: dictSet rest k v

def dictUpdate (d other : PyDict) : PyDict :=
  other.foldl (fun acc p => dictSet acc p.1 p.2) d

def dictLookup (d : PyDict) (k : String) : Option String :=
  (d.find? (fun p => p.1 == k)).map Prod.snd

theorem str_beq_false {a b : String} (h : a ≠ b) : (a == b) = false :=
  beq_eq_false_iff_ne.mpr h

theorem dictLookup_nil (n : String) : dictLookup [] n = none := rfl

theorem dictLookup_cons (p : String × String) (d : PyDict) (n : String) :
    dictLookup (p :: d) n = if p.1 = n then some p.2 else dictLookup d n := by
  by_cases h : p.1 = n
  · simp [dictLookup, List.find?_cons_of_pos, h]
  · simp only [dictLookup, if_neg h]
    rw [List.find?_cons_of_neg]
    simpa using h

theorem dictSet_cons_eq (p : String × String) (rest : PyDict) (k v : String)
    (hp : p.1 = k) : dictSet (p :: rest) k v = (k, v) :: rest := by
  simp [dictSet, hp]

theorem dictSet_cons_ne (p : String × String) (rest : PyDict) (k v : String)
    (hp : p.1 ≠ k) : dictSet (p :: rest) k v = p :: dictSet rest k v := by
  simp [dictSet, hp]

theorem dictLookup_dictSet (d : PyDict) (k v n : String) :
    dictLookup (dictSet d k v) n = if n = k then some v else dictLookup d n := by
  induction d with
  | nil =>
    rw [show dictSet [] k v = [(k, v)] from rfl, dictLookup_cons]
    by_cases h : n = k
    · rw [if_pos h.symm, if_pos h]
    · rw [if_neg (fun hh => h hh.symm), if_neg h]
  | cons p rest ih =>
    by_cases hp : p.1 = k
    · rw [dictSet_cons_eq p rest k v hp, dictLookup_cons, dictLookup_cons]
      by_cases h : n = k
      · rw [if_pos h.symm, if_pos h]
      · rw [if_neg (fun hh => h hh.symm), if_neg h, if_neg (fun hh => h (hp ▸ hh).symm)]
    · rw [dictSet_cons_ne p rest k v hp, dictLookup_cons, ih, dictLookup_cons]
      by_cases hpn : p.1 = n
      · rw [if_pos hpn, if_neg (fun hh => hp (hpn.trans hh)), if_pos hpn]
      · rw [if_neg hpn, if_neg hpn]

theorem dictKeys_dictSet_mem (d : PyDict) (k v n : String) :
    n ∈ dictKeys (dictSet d k v) ↔ n ∈ dictKeys d ∨ n = k := by
  induction d with
  | nil => simp [dictSet, dictKeys]
  | cons p rest ih =>
    by_cases hp : p.1 = k
    · rw [dictSet_cons_eq p rest k v hp]
      simp only [dictKeys, List.map_cons, List.mem_cons, hp]
      tauto
    · rw [dictSet_cons_ne p rest k v hp]
      simp only [dictKeys, List.map_cons, List.mem_cons]
      simp only [dictKeys] at ih
      rw [ih]
      tauto

theorem dictLookup_eq_none (d : PyDict) (k : String) :
    dictLookup d k = none ↔ k ∉ dictKeys d := by
  induction d with
  | nil => simp [dictLookup_nil, dictKeys]
  | cons p rest ih =>
    rw [dictLookup_cons]
    by_cases hp : p.1 = k
    · rw [if_pos hp]
      simp only [dictKeys, List.map_cons, List.mem_cons]
      constructor
      · intro h
        cases h
      · intro h
        exact absurd (Or.inl hp.symm) h
    · rw [if_neg hp, ih]
      simp only [dictKeys, List.map_cons, List.mem_cons]
      constructor
      · intro h
        rintro (h2 | h2)
        · exact hp h2.symm
        · exact h h2
      · tauto

theorem dictLookup_of_mem_nodup (d : PyDict) (k v : String)
    (hmem : (k, v) ∈ d) (hnd : (dictKeys d).Nodup) : dictLookup d k = some v := by
  induction d with
  | nil => cases hmem
  | cons p rest ih =>
    simp only [dictKeys, List.map_cons, List.nodup_cons] at hnd
    rw [dictLookup_cons]
    rcases List.mem_cons.mp hmem with h | h
    · subst h
      rw [if_pos rfl]
    · have hp : p.1 ≠ k := by
        intro he
        exact hnd.1 (he ▸ (List.mem_map.mpr ⟨(k, v), h, rfl⟩))
      rw [if_neg hp]
      exact ih h hnd.2

theorem dictKeys_dictSet_nodup (d : PyDict) (k v : String)
    (hnd : (dictKeys d).Nodup) : (dictKeys (dictSet d k v)).Nodup := by
  induction d with
  | nil => simp [dictSet, dictKeys]
  | cons p rest ih =>
    simp only [dictKeys, List.map_cons, List.nodup_cons] at hnd
    by_cases hp : p.1 = k
    · rw [dictSet_cons_eq p rest k v hp]
      simp only [dictKeys, List.map_cons, List.nodup_cons]
      exact ⟨hp ▸ hnd.1, hnd.2⟩
    · rw [dictSet_cons_ne p rest k v hp]
      simp only [dictKeys, List.map_cons, List.nodup_cons]
      refine ⟨fun hin => ?_, ih hnd.2⟩
      rcases (dictKeys_dictSet_mem rest k v p.1).mp hin with h | h
      · exact hnd.1 h
      · exact hp h

/-! ### Last-wins machinery

A Python dict built by successive assignments maps each key to the value of
the *last* assignment with that key.  `lastSuch g l` returns `g x` for the
last `x ∈ l` with `g x ≠ none`. -/

def lastSuch {α β : Type} (g : α → Option β) (l : List α) : Option β :=
  l.foldl (fun a x => match g x with | some b => some b | none => a) none

theorem lastSuch_accum {α β : Type} (g : α → Option β) (l : List α) (acc : Option β) :
    l.foldl (fun a x => match g x with | some b => some b | none => a) acc =
      match lastSuch g l with | some b => some b | none => acc := by
  induction l generalizing acc with
  | nil => rfl
  | cons x t ih =>
    rw [List.foldl_cons, ih]
    have h2 : lastSuch g (x :: t) =
        match lastSuch g t with
        | some b => some b
        | none => match g x with | some b => some b | none => none := by
      rw [lastSuch, List.foldl_cons]
      exact ih _
    rw [h2]
    rcases lastSuch g t with _ | b
    · cases g x <;> rfl
    · rfl

theorem lastSuch_nil {α β : Type} (g : α → Option β) : lastSuch g [] = none := rfl

theorem lastSuch_cons {α β : Type} (g : α → Option β) (x : α) (t : List α) :
    lastSuch g (x :: t) =
      match lastSuch g t with | some b => some b | none => g x := by
  rw [lastSuch, List.foldl_cons]
  rw [show (match g x with | some b => some b | none => (none : Option β)) = g x by
    cases g x <;> rfl] at *
  rw [show (t.foldl (fun a x => match g x with | some b => some b | none => a) (g x)) =
      match lastSuch g t with | some b => some b | none => g x from lastSuch_accum g t _]

theorem lastSuch_append {α β : Type} (g : α → Option β) (a b : List α) :
    lastSuch g (a ++ b) =
      match lastSuch g b with | some q => some q | none => lastSuch g a := by
  rw [lastSuch, List.foldl_append]
  exact lastSuch_accum g b (lastSuch g a)

theorem lastSuch_eq_none {α β : Type} (g : α → Option β) (l : List α)
    (h : ∀ x ∈ l, g x = none) : lastSuch g l = none := by
  induction l with
  | nil => rfl
  | cons x t ih =>
    rw [lastSuch_cons, ih (fun y hy => h y (List.mem_cons_of_mem x hy)),
      h x (List.mem_cons_self x t)]

theorem lastSuch_eq_some {α β : Type} (g : α → Option β) (l : List α) (x : α) (b : β)
    (hx : x ∈ l) (hgx : g x = some b) (huniq : ∀ y ∈ l, g y ≠ none → y = x) :
    lastSuch g l = some b := by
  induction l with
  | nil => cases hx
  | cons z t ih =>
    rw [lastSuch_cons]
    by_cases hxt : x ∈ t
    · rw [ih hxt (fun y hy hgy => huniq y (List.mem_cons_of_mem z hy) hgy)]
    · have hzx : z = x := by
        rcases List.mem_cons.mp hx with h | h
        · exact h.symm
        · exact absurd h hxt
      have ht : lastSuch g t = none := by
        apply lastSuch_eq_none
        intro y hy
        by_contra hgy
        exact hxt ((huniq y (List.mem_cons_of_mem z hy) hgy) ▸ hy)
      rw [ht, hzx, hgx]

theorem lastSuch_map {α β γ : Type} (g : β → Option γ) (f : α → β) (l : List α) :
    lastSuch g (l.map f) = lastSuch (fun x => g (f x)) l := by
  rw [lastSuch, lastSuch, List.foldl_map]

theorem lastSuch_congr {α β : Type} (g g' : α → Option β) (l : List α)
    (h : ∀ x ∈ l, g x = g' x) : lastSuch g l = lastSuch g' l := by
  induction l with
  | nil => rfl
  | cons x t ih =>
    rw [lastSuch_cons, lastSuch_cons, ih (fun y hy => h y (List.mem_cons_of_mem x hy)),
      h x (List.mem_cons_self x t)]

theorem find?_decomp {α : Type} (p : α → Bool) (l : List α) (a : α)
    (h : l.find? p = some a) :
    ∃ l₁ l₂, l = l₁ ++ a :: l₂ ∧ (∀ b ∈ l₁, p b = false) ∧ l.eraseP p = l₁ ++ l₂ := by
  induction l with
  | nil => simp [List.find?] at h
  | cons x t ih =>
    cases hpx : p x with
    | true =>
      rw [List.find?_cons_of_pos t hpx] at h
      refine ⟨[], t, ?_, ?_, ?_⟩
      · simp [Option.some_inj.mp h]
      · intro b hb
        cases hb
      · simpa using List.eraseP_cons_of_pos hpx
    | false =>
      rw [List.find?_cons_of_neg t (by simp [hpx])] at h
      rcases ih h with ⟨l₁, l₂, hdec, hnone, herase⟩
      refine ⟨x :: l₁, l₂, by rw [hdec]; rfl, ?_, ?_⟩
      · intro b hb
        rcases List.mem_cons.mp hb with h2 | h2
        · subst h2
          exact hpx
        · exact hnone b h2
      · rw [List.eraseP_cons_of_neg (by simp [hpx]), herase]
        rfl

/-! ### Structure of `merged = self.headers.copy(); merged.update(headers)` -/

theorem dictUpdate_cons (s : PyDict) (q : String × String) (r : PyDict) :
    dictUpdate s (q :: r) = dictUpdate (dictSet s q.1 q.2) r := rfl

theorem dictUpdate_keys_mem (s r : PyDict) (n : String) :
    n ∈ dictKeys (dictUpdate s r) ↔ n ∈ dictKeys s ∨ n ∈ dictKeys r := by
  induction r generalizing s with
  | nil => simp [dictUpdate, dictKeys]
  | cons q r ih =>
    rw [dictUpdate_cons, ih, dictKeys_dictSet_mem]
    simp only [dictKeys, List.map_cons, List.mem_cons]
    tauto

theorem dictUpdate_keys_nodup (s r : PyDict) (hs : (dictKeys s).Nodup) :
    (dictKeys (dictUpdate s r)).Nodup := by
  induction r generalizing s with
  | nil => exact hs
  | cons q r ih => exact ih _ (dictKeys_dictSet_nodup s q.1 q.2 hs)

theorem entry_eq_of_key_eq (d : PyDict) (hnd : (dictKeys d).Nodup)
    (p q : String × String) (hp : p ∈ d) (hq : q ∈ d) (hk : p.1 = q.1) : p = q := by
  induction d with
  | nil => cases hp
  | cons z t ih =>
    simp only [dictKeys, List.map_cons, List.nodup_cons] at hnd
    rcases List.mem_cons.mp hp with h1 | h1 <;> rcases List.mem_cons.mp hq with h2 | h2
    · rw [h1, h2]
    · exfalso
      apply hnd.1
      rw [← h1, hk]
      exact List.mem_map.mpr ⟨q, h2, rfl⟩
    · exfalso
      apply hnd.1
      rw [← h2, ← hk]
      exact List.mem_map.mpr ⟨p, h1, rfl⟩
    · exact ih hnd.2 h1 h2

theorem dictSet_eq_map_of_mem (s : PyDict) (k v : String)
    (hs : (dictKeys s).Nodup) (hk : k ∈ dictKeys s) :
    dictSet s k v = s.map (fun p => if p.1 = k then (k, v) else p) := by
  induction s with
  | nil => cases hk
  | cons p rest ih =>
    simp only [dictKeys, List.map_cons, List.nodup_cons] at hs
    by_cases hp : p.1 = k
    · rw [dictSet_cons_eq p rest k v hp, List.map_cons, if_pos hp]
      congr 1
      have hid : ∀ q ∈ rest, (if q.1 = k then (k, v) else q) = id q := by
        intro q hq
        rw [if_neg (fun hqk => hs.1 (by rw [hp, ← hqk]; exact List.mem_map.mpr ⟨q, hq, rfl⟩))]
        rfl
      rw [List.map_congr_left hid, List.map_id]
    · have hk2 : k ∈ dictKeys rest := by
        rcases List.mem_map.mp hk with ⟨q, hq, hq2⟩
        rcases List.mem_cons.mp hq with h | h
        · exact absurd (h ▸ hq2) hp
        · exact List.mem_map.mpr ⟨q, h, hq2⟩
      rw [dictSet_cons_ne p rest k v hp, List.map_cons, if_neg hp, ih hs.2 hk2]

theorem dictSet_eq_append_of_not_mem (s : PyDict) (k v : String)
    (hk : k ∉ dictKeys s) : dictSet s k v = s ++ [(k, v)] := by
  induction s with
  | nil => rfl
  | cons p rest ih =>
    have hp : p.1 ≠ k := fun h => hk (List.mem_map.mpr ⟨p, List.mem_cons_self p rest, h⟩)
    rw [dictSet_cons_ne p rest k v hp,
      ih (fun h => hk (by
        rcases List.mem_map.mp h with ⟨q, hq, hq2⟩
        exact List.mem_map.mpr ⟨q, List.mem_cons_of_mem p hq, hq2⟩))]
    rfl

/-- The effect of one `update` round on a single source entry: entries whose
key also occurs in `other` get `other`'s value, everything else is kept. -/
def updMap (r : PyDict) (p : String × String) : String × String :=
  match dictLookup r p.1 with
  | some v => (p.1, v)
  | none => p

theorem updMap_key (r : PyDict) (p : String × String) : (updMap r p).1 = p.1 := by
  rw [updMap]
  rcases dictLookup r p.1 with _ | v <;> rfl

theorem updMap_eq_of_lookup_some (r : PyDict) (p : String × String) (v : String)
    (h : dictLookup r p.1 = some v) : updMap r p = (p.1, v) := by
  rw [updMap, h]

theorem updMap_eq_of_lookup_none (r : PyDict) (p : String × String)
    (h : dictLookup r p.1 = none) : updMap r p = p := by
  rw [updMap, h]

theorem dictUpdate_decomp (s r : PyDict)
    (hs : (dictKeys s).Nodup) (hr : (dictKeys r).Nodup) :
    dictUpdate s r =
      s.map (updMap r) ++ r.filter (fun q => !(decide (q.1 ∈ dictKeys s))) := by
  induction r generalizing s with
  | nil =>
    have hid : ∀ p ∈ s, updMap [] p = id p := fun p _ => by
      rw [updMap_eq_of_lookup_none [] p (dictLookup_nil p.1)]
      rfl
    simp only [dictUpdate, List.foldl_nil, List.filter_nil, List.append_nil]
    rw [List.map_congr_left hid, List.map_id]
  | cons q r ih =>
    have hqr : q.1 ∉ dictKeys r := by
      simp only [dictKeys, List.map_cons, List.nodup_cons] at hr
      exact hr.1
    have hrr : (dictKeys r).Nodup := by
      simp only [dictKeys, List.map_cons, List.nodup_cons] at hr
      exact hr.2
    rw [dictUpdate_cons, ih (dictSet s q.1 q.2) (dictKeys_dictSet_nodup s q.1 q.2 hs) hrr]
    by_cases hq : q.1 ∈ dictKeys s
    · have hfiltereq :
          r.filter (fun z => !(decide (z.1 ∈ dictKeys (dictSet s q.1 q.2)))) =
          r.filter (fun z => !(decide (z.1 ∈ dictKeys s))) := by
        apply List.filter_congr
        intro z hz
        have hzq : z.1 ≠ q.1 := fun h => hqr (by rw [← h]; exact List.mem_map.mpr ⟨z, hz, rfl⟩)
        have hiff : z.1 ∈ dictKeys (dictSet s q.1 q.2) ↔ z.1 ∈ dictKeys s := by
          rw [dictKeys_dictSet_mem]
          exact ⟨fun h => h.elim (fun h => h) (fun h => absurd h hzq), Or.inl⟩
        exact congrArg (fun b => !b) (decide_eq_decide.mpr hiff)
      have hmapeq : ∀ p ∈ s,
          (updMap r ∘ fun p => if p.1 = q.1 then (q.1, q.2) else p) p = updMap (q :: r) p := by
        intro p _
        show updMap r (if p.1 = q.1 then (q.1, q.2) else p) = updMap (q :: r) p
        by_cases hpq : p.1 = q.1
        · rw [if_pos hpq,
            updMap_eq_of_lookup_none r (q.1, q.2) ((dictLookup_eq_none r q.1).mpr hqr),
            updMap_eq_of_lookup_some (q :: r) p q.2 (by rw [dictLookup_cons, if_pos hpq.symm]),
            hpq]
        · rw [if_neg hpq, updMap, updMap, dictLookup_cons, if_neg (fun h => hpq h.symm)]
      rw [hfiltereq, dictSet_eq_map_of_mem s q.1 q.2 hs hq, List.map_map,
        List.map_congr_left hmapeq,
        show (q :: r).filter (fun z => !(decide (z.1 ∈ dictKeys s))) =
          r.filter (fun z => !(decide (z.1 ∈ dictKeys s))) from by
          rw [List.filter_cons_of_neg]
          simp [hq]]
    · have hfiltereq :
          r.filter (fun z => !(decide (z.1 ∈ dictKeys (dictSet s q.1 q.2)))) =
          r.filter (fun z => !(decide (z.1 ∈ dictKeys s))) := by
        apply List.filter_congr
        intro z hz
        have hzq : z.1 ≠ q.1 := fun h => hqr (by rw [← h]; exact List.mem_map.mpr ⟨z, hz, rfl⟩)
        have hiff : z.1 ∈ dictKeys (dictSet s q.1 q.2) ↔ z.1 ∈ dictKeys s := by
          rw [dictKeys_dictSet_mem]
          exact ⟨fun h => h.elim (fun h => h) (fun h => absurd h hzq), Or.inl⟩
        exact congrArg (fun b => !b) (decide_eq_decide.mpr hiff)
      have hmapeq : ∀ p ∈ s, updMap r p = updMap (q :: r) p := by
        intro p hp
        have hpq : p.1 ≠ q.1 := fun h => hq (by rw [← h]; exact List.mem_map.mpr ⟨p, hp, rfl⟩)
        rw [updMap, updMap, dictLookup_cons, if_neg (fun h => hpq h.symm)]
      have hupq : updMap r q = q :=
        updMap_eq_of_lookup_none r q ((dictLookup_eq_none r q.1).mpr hqr)
      rw [hfiltereq, dictSet_eq_append_of_not_mem s q.1 q.2 hq, List.map_append,
        List.map_congr_left hmapeq,
        show (q :: r).filter (fun z => !(decide (z.1 ∈ dictKeys s))) =
          q :: r.filter (fun z => !(decide (z.1 ∈ dictKeys s))) from by
          rw [List.filter_cons_of_pos]
          simp [hq]]
      simp only [List.map_cons, List.map_nil, hupq, List.append_assoc, List.cons_append,
        List.nil_append]

/-! ### The last entry of a case-insensitive header class in the merged dict -/

/-- Value of the last entry of `d` whose key lowercases to `c`. -/
def lastValClass (c : String) (d : PyDict) : Option String :=
  lastSuch (fun p => if pyLower p.1 = c then some p.2 else none) d

theorem lastValClass_update_req (s r : PyDict) (k v : String)
    (hs : (dictKeys s).Nodup) (hr : (dictKeys r).Nodup)
    (hsc : ((dictKeys s).map pyLower).Nodup) (hrc : ((dictKeys r).map pyLower).Nodup)
    (hmem : (k, v) ∈ r) :
    lastValClass (pyLower k) (dictUpdate s r) = some v := by
  have hkr : k ∈ dictKeys r := List.mem_map.mpr ⟨(k, v), hmem, rfl⟩
  rw [dictUpdate_decomp s r hs hr, lastValClass, lastSuch_append]
  by_cases hq : k ∈ dictKeys s
  · have hfil : lastSuch (fun p => if pyLower p.1 = pyLower k then some p.2 else none)
        (r.filter (fun z => !(decide (z.1 ∈ dictKeys s)))) = none := by
      apply lastSuch_eq_none
      intro z hz
      rcases List.mem_filter.mp hz with ⟨hzr, hzf⟩
      rw [if_neg]
      intro hcls
      have hz1 : z.1 ∈ dictKeys r := List.mem_map.mpr ⟨z, hzr, rfl⟩
      have : z.1 = k := List.inj_on_of_nodup_map hrc hz1 hkr hcls
      rw [this] at hzf
      simp [hq] at hzf
    rw [hfil]
    rcases List.mem_map.mp hq with ⟨p0, hp0s, hp0k⟩
    apply lastSuch_eq_some _ _ (updMap r p0) v
    · exact List.mem_map.mpr ⟨p0, hp0s, rfl⟩
    · rw [updMap_eq_of_lookup_some r p0 v (by rw [hp0k]; exact dictLookup_of_mem_nodup r k v hmem hr)]
      rw [if_pos (by rw [hp0k])]
    · intro y hy hgy
      rcases List.mem_map.mp hy with ⟨p1, hp1s, hp1y⟩
      have hcls : pyLower y.1 = pyLower k := by
        by_contra hne
        exact hgy (by rw [if_neg hne])
      rw [← hp1y, updMap_key] at hcls
      have hk1 : p1.1 ∈ dictKeys s := List.mem_map.mpr ⟨p1, hp1s, rfl⟩
      have hk0 : p0.1 ∈ dictKeys s := List.mem_map.mpr ⟨p0, hp0s, rfl⟩
      have hkk : p1.1 = p0.1 :=
        List.inj_on_of_nodup_map hsc hk1 hk0 (by rw [hcls, hp0k])
      rw [← hp1y, entry_eq_of_key_eq s hs p1 p0 hp1s hp0s hkk]
  · have hfil : lastSuch (fun p => if pyLower p.1 = pyLower k then some p.2 else none)
        (r.filter (fun z => !(decide (z.1 ∈ dictKeys s)))) = some v := by
      apply lastSuch_eq_some _ _ (k, v) v
      · exact List.mem_filter.mpr ⟨hmem, by simp [hq]⟩
      · rw [if_pos rfl]
      · intro y hy hgy
        rcases List.mem_filter.mp hy with ⟨hyr, _⟩
        have hcls : pyLower y.1 = pyLower k := by
          by_contra hne
          exact hgy (by rw [if_neg hne])
        have hy1 : y.1 ∈ dictKeys r := List.mem_map.mpr ⟨y, hyr, rfl⟩
        have : y.1 = k := List.inj_on_of_nodup_map hrc hy1 hkr hcls
        exact entry_eq_of_key_eq r hr y (k, v) hyr hmem this
    rw [hfil]

theorem lastValClass_update_session (s r : PyDict) (k v : String)
    (hs : (dictKeys s).Nodup) (hr : (dictKeys r).Nodup)
    (hsc : ((dictKeys s).map pyLower).Nodup)
    (hmem : (k, v) ∈ s)
    (hnc : ∀ k' ∈ dictKeys r, pyLower k' ≠ pyLower k) :
    lastValClass (pyLower k) (dictUpdate s r) = some v := by
  rw [dictUpdate_decomp s r hs hr, lastValClass, lastSuch_append]
  have hfil : lastSuch (fun p => if pyLower p.1 = pyLower k then some p.2 else none)
      (r.filter (fun z => !(decide (z.1 ∈ dictKeys s)))) = none := by
    apply lastSuch_eq_none
    intro z hz
    rcases List.mem_filter.mp hz with ⟨hzr, _⟩
    rw [if_neg (hnc z.1 (List.mem_map.mpr ⟨z, hzr, rfl⟩))]
  rw [hfil]
  have hknr : k ∉ dictKeys r := fun h => hnc k h rfl
  apply lastSuch_eq_some _ _ (updMap r (k, v)) v
  · exact List.mem_map.mpr ⟨(k, v), hmem, rfl⟩
  · rw [updMap_eq_of_lookup_none r (k, v) ((dictLookup_eq_none r k).mpr hknr), if_pos rfl]
  · intro y hy hgy
    rcases List.mem_map.mp hy with ⟨p1, hp1s, hp1y⟩
    have hcls : pyLower y.1 = pyLower k := by
      by_contra hne
      exact hgy (by rw [if_neg hne])
    rw [← hp1y, updMap_key] at hcls
    have hk1 : p1.1 ∈ dictKeys s := List.mem_map.mpr ⟨p1, hp1s, rfl⟩
    have hk0 : k ∈ dictKeys s := List.mem_map.mpr ⟨(k, v), hmem, rfl⟩
    have hkk : p1.1 = k := List.inj_on_of_nodup_map hsc hk1 hk0 hcls
    rw [← hp1y, entry_eq_of_key_eq s hs p1 (k, v) hp1s hmem hkk]

/-! ### The ordering loop of `_morph_headers`

For each lowercased entry of the order rule the source pops the first
case-insensitive match out of `merged` and assigns it (case-normalized) into
`morphed`; afterwards the remaining entries are assigned in order.
`orderPhase` is that loop; `orderIns`/`orderRem` are the same recursion
split into the sequence of performed assignments and the left-over dict,
used to reason about the loop. -/

def casePair (mode : String) (p : String × String) : String × String :=
  (caseKey mode p.1, p.2)

def orderPhase (mode : String) : List String → PyDict × PyDict → PyDict × PyDict
  | [], st => st
  | key :: rest, (morphed, merged) =>
    match merged.find? (fun p => pyLower p.1 == key) with
    | some p => orderPhase mode rest
        (dictSet morphed (caseKey mode p.1) p.2, merged.eraseP (fun q => pyLower q.1 == key))
    | none => orderPhase mode rest (morphed, merged)

def orderIns (mode : String) : List String → PyDict → PyDict
  | [], _ => []
  | key :: rest, merged =>
    match merged.find? (fun p => pyLower p.1 == key) with
    | some p => (caseKey mode p.1, p.2) ::
        orderIns mode rest (merged.eraseP (fun q => pyLower q.1 == key))
    | none => orderIns mode rest merged

def orderRem : List String → PyDict → PyDict
  | [], merged => merged
  | key :: rest, merged =>
    match merged.find? (fun p => pyLower p.1 == key) with
    | some _ => orderRem rest (merged.eraseP (fun q => pyLower q.1 == key))
    | none => orderRem rest merged

theorem orderPhase_eq (mode : String) (ord : List String) (acc merged : PyDict) :
    orderPhase mode ord (acc, merged) =
      ((orderIns mode ord merged).foldl (fun d p => dictSet d p.1 p.2) acc,
        orderRem ord merged) := by
  induction ord generalizing acc merged with
  | nil => rfl
  | cons key rest ih =>
    rcases hfind : merged.find? (fun p => pyLower p.1 == key) with _ | p
    · simp only [orderPhase, orderIns, orderRem, hfind]
      exact ih acc merged
    · simp only [orderPhase, orderIns, orderRem, hfind, List.foldl_cons]
      exact ih _ _

theorem orderIns_append_perm (mode : String) (ord : List String) (m : PyDict) :
    (orderIns mode ord m ++ (orderRem ord m).map (casePair mode)).Perm
      (m.map (casePair mode)) := by
  induction ord generalizing m with
  | nil => simp [orderIns, orderRem]
  | cons key rest ih =>
    rcases hfind : m.find? (fun p => pyLower p.1 == key) with _ | p
    · simp only [orderIns, orderRem, hfind]
      exact ih m
    · rcases find?_decomp _ m p hfind with ⟨l₁, l₂, hm_eq, _, herase⟩
      simp only [orderIns, orderRem, hfind, herase, List.cons_append]
      refine ((ih (l₁ ++ l₂)).cons (casePair mode p)).trans ?_
      rw [hm_eq]
      simp only [List.map_append, List.map_cons]
      exact List.perm_middle.symm

theorem option_match_collapse {β : Type} (x : Option β) :
    (match x with | some b => some b | none => none) = x := by
  cases x <;> rfl

theorem lastValClass_map_casePair (mode : String) (hm : canonicalMode mode)
    (c : String) (x : PyDict) :
    lastValClass c (x.map (casePair mode)) = lastValClass c x := by
  rw [lastValClass, lastValClass, lastSuch_map]
  apply lastSuch_congr
  intro p _
  show (if pyLower (caseKey mode p.1) = c then some p.2 else none) =
    if pyLower p.1 = c then some p.2 else none
  rw [pyLower_caseKey mode hm]

theorem orderTotal_lastValClass (mode : String) (hm : canonicalMode mode)
    (c : String) (ord : List String) (m : PyDict) :
    lastValClass c (orderIns mode ord m ++ (orderRem ord m).map (casePair mode)) =
      lastValClass c m := by
  induction ord generalizing m with
  | nil =>
    simp only [orderIns, orderRem, List.nil_append]
    exact lastValClass_map_casePair mode hm c m
  | cons key rest ih =>
    rcases hfind : m.find? (fun p => pyLower p.1 == key) with _ | p
    · simp only [orderIns, orderRem, hfind]
      exact ih m
    · have hp_class : pyLower p.1 = key := by
        have := List.find?_some hfind
        simpa using this
      rcases find?_decomp _ m p hfind with ⟨l₁, l₂, hm_eq, hl₁, herase⟩
      simp only [orderIns, orderRem, hfind, herase, List.cons_append]
      rw [lastValClass, lastSuch_cons]
      rw [show lastSuch (fun p => if pyLower p.1 = c then some p.2 else none)
          (orderIns mode rest (l₁ ++ l₂) ++ (orderRem rest (l₁ ++ l₂)).map (casePair mode)) =
          lastValClass c (l₁ ++ l₂) from ih (l₁ ++ l₂)]
      conv_rhs => rw [hm_eq, lastValClass, lastSuch_append, lastSuch_cons]
      simp only [lastValClass]
      rw [lastSuch_append]
      by_cases hc : c = key
      · have hl₁none : lastSuch (fun p => if pyLower p.1 = c then some p.2 else none)
            l₁ = none := by
          apply lastSuch_eq_none
          intro x hx
          rw [if_neg]
          intro hcls
          have := hl₁ x hx
          rw [hcls, hc] at this
          simp at this
        have hgp : (if pyLower (caseKey mode p.1, p.2).1 = c
            then some (caseKey mode p.1, p.2).2 else none) = some p.2 := by
          show (if pyLower (caseKey mode p.1) = c then some p.2 else none) = some p.2
          rw [pyLower_caseKey mode hm, hp_class, hc]
          exact if_pos rfl
        have hgp2 : (if pyLower p.1 = c then some p.2 else none) = some p.2 := by
          rw [hp_class, hc]
          exact if_pos rfl
        rw [hgp, hgp2, hl₁none]
        generalize lastSuch (fun p => if pyLower p.1 = c then some p.2 else none) l₂ = z2
        rcases z2 with _ | b <;> rfl
      · have hgp : (if pyLower (caseKey mode p.1, p.2).1 = c
            then some (caseKey mode p.1, p.2).2 else none) = none := by
          show (if pyLower (caseKey mode p.1) = c then some p.2 else none) = none
          rw [pyLower_caseKey mode hm, hp_class, if_neg (fun h => hc h.symm)]
        have hgp2 : (if pyLower p.1 = c then some p.2 else none) = none := by
          rw [hp_class, if_neg (fun h => hc h.symm)]
        rw [hgp, hgp2]
        generalize lastSuch (fun p => if pyLower p.1 = c then some p.2 else none) l₂ = z2
        generalize lastSuch (fun p => if pyLower p.1 = c then some p.2 else none) l₁ = z1
        rcases z2 with _ | b <;> rcases z1 with _ | b2 <;> rfl

/-! ### The profile catalog

`BrowserProfile` models the profile dicts of `fingerprint_gallery.py` and
`profiles.py`.  Only the fields read by the verified code paths are carried:
`ciphers`/`tls12_ciphers`, `ja3`, `ja3_hash` and `http2_settings` are never
consulted by header morphing, randomization, rotation or block handling and
are elided.  `extensions := none` models the absence of the `"extensions"`
key (legacy profiles), which `randomize_profile` tests with `in`.  The
`randomization` sub-dict is flattened into three fields with the defaults
that `dict.get` supplies when the key is missing. -/

structure BrowserProfile where
  name : String
  impersonate : String
  user_agent : String
  sec_ch_ua : Option String := none
  sec_ch_ua_platform : Option String := none
  sec_ch_ua_mobile : Option String := none
  header_case : String
  header_order : List String
  extensions : Option (List Int) := none
  ua_minor_variance : Bool := false
  extension_variance : Nat := 0
  cipher_shuffle : Bool := false
deriving DecidableEq, Repr

def chromeExtensionList : List Int :=
  [0, 23, 65281, 10, 11, 35, 16, 5, 13, 18, 51, 45, 43, 27, 17513, 21]

def chromeHeaderOrder120 : List String :=
  ["host", "connection", "cache-control", "sec-ch-ua", "sec-ch-ua-mobile",
   "sec-ch-ua-platform", "upgrade-insecure-requests", "user-agent", "accept",
   "sec-fetch-site", "sec-fetch-mode", "sec-fetch-user", "sec-fetch-dest",
   "accept-encoding", "accept-language"]

def chromeHeaderOrder124 : List String :=
  ["host", "connection", "cache-control", "sec-ch-ua", "sec-ch-ua-mobile",
   "sec-ch-ua-platform", "upgrade-insecure-requests", "user-agent", "accept",
   "sec-fetch-site", "sec-fetch-mode", "sec-fetch-user", "sec-fetch-dest",
   "accept-encoding", "accept-language", "priority"]

def CHROME_120_WIN11 : BrowserProfile :=
  { name := "chrome_120_win11", impersonate := "chrome120",
    user_agent := "Mozilla/5.0 (Windows NT 10.0; Win64; x64) AppleWebKit/537.36 (KHTML, like Gecko) Chrome/120.0.0.0 Safari/537.36",
    sec_ch_ua := some "\"Not_A Brand\";v=\"8\", \"Chromium\";v=\"120\", \"Google Chrome\";v=\"120\"",
    sec_ch_ua_platform := some "\"Windows\"",
    header_case := "lower", header_order := chromeHeaderOrder120,
    extensions := some chromeExtensionList, ua_minor_variance := true }

def CHROME_120_WIN10 : BrowserProfile :=
  { CHROME_120_WIN11 with name := "chrome_120_win10" }

def CHROME_120_MACOS : BrowserProfile :=
  { CHROME_120_WIN11 with
    name := "chrome_120_macos"
    user_agent := "Mozilla/5.0 (Macintosh; Intel Mac OS X 10_15_7) AppleWebKit/537.36 (KHTML, like Gecko) Chrome/120.0.0.0 Safari/537.36"
    sec_ch_ua_platform := some "\"macOS\"" }

def CHROME_120_LINUX : BrowserProfile :=
  { CHROME_120_WIN11 with
    name := "chrome_120_linux"
    user_agent := "Mozilla/5.0 (X11; Linux x86_64) AppleWebKit/537.36 (KHTML, like Gecko) Chrome/120.0.0.0 Safari/537.36"
    sec_ch_ua_platform := some "\"Linux\"" }

def CHROME_124_WIN11 : BrowserProfile :=
  { name := "chrome_124_win11", impersonate := "chrome124",
    user_agent := "Mozilla/5.0 (Windows NT 10.0; Win64; x64) AppleWebKit/537.36 (KHTML, like Gecko) Chrome/124.0.0.0 Safari/537.36",
    sec_ch_ua := some "\"Chromium\";v=\"124\", \"Google Chrome\";v=\"124\", \"Not-A.Brand\";v=\"99\"",
    sec_ch_ua_platform := some "\"Windows\"",
    header_case := "lower", header_order := chromeHeaderOrder124,
    extensions := some chromeExtensionList, ua_minor_variance := true }

def CHROME_124_WIN10 : BrowserProfile :=
  { CHROME_124_WIN11 with name := "chrome_124_win10" }

def CHROME_124_MACOS : BrowserProfile :=
  { CHROME_124_WIN11 with
    name := "chrome_124_macos"
    user_agent := "Mozilla/5.0 (Macintosh; Intel Mac OS X 10_15_7) AppleWebKit/537.36 (KHTML, like Gecko) Chrome/124.0.0.0 Safari/537.36"
    sec_ch_ua_platform := some "\"macOS\"" }

def CHROME_124_LINUX : BrowserProfile :=
  { CHROME_124_WIN11 with
    name := "chrome_124_linux"
    user_agent := "Mozilla/5.0 (X11; Linux x86_64) AppleWebKit/537.36 (KHTML, like Gecko) Chrome/124.0.0.0 Safari/537.36"
    sec_ch_ua_platform := some "\"Linux\"" }

def CHROME_125_WIN11 : BrowserProfile :=
  { name := "chrome_125_win11", impersonate := "chrome124",
    user_agent := "Mozilla/5.0 (Windows NT 10.0; Win64; x64) AppleWebKit/537.36 (KHTML, like Gecko) Chrome/125.0.0.0 Safari/537.36",
    sec_ch_ua := some "\"Chromium\";v=\"125\", \"Google Chrome\";v=\"125\", \"Not-A.Brand\";v=\"24\"",
    sec_ch_ua_platform := some "\"Windows\"",
    header_case := "lower", header_order := chromeHeaderOrder124,
    extensions := some chromeExtensionList, ua_minor_variance := true }

def CHROME_125_WIN10 : BrowserProfile :=
  { CHROME_125_WIN11 with name := "chrome_125_win10" }

def CHROME_125_MACOS : BrowserProfile :=
  { CHROME_125_WIN11 with
    name := "chrome_125_macos"
    user_agent := "Mozilla/5.0 (Macintosh; Intel Mac OS X 10_15_7) AppleWebKit/537.36 (KHTML, like Gecko) Chrome/125.0.0.0 Safari/537.36"
    sec_ch_ua_platform := some "\"macOS\"" }

def CHROME_125_LINUX : BrowserProfile :=
  { CHROME_125_WIN11 with
    name := "chrome_125_linux"
    user_agent := "Mozilla/5.0 (X11; Linux x86_64) AppleWebKit/537.36 (KHTML, like Gecko) Chrome/125.0.0.0 Safari/537.36"
    sec_ch_ua_platform := some "\"Linux\"" }

def CHROME_ANDROID_120 : BrowserProfile :=
  { name := "chrome_android_120", impersonate := "chrome120_android",
    user_agent := "Mozilla/5.0 (Linux; Android 14; SM-S918B) AppleWebKit/537.36 (KHTML, like Gecko) Chrome/120.0.6099.144 Mobile Safari/537.36",
    sec_ch_ua := some "\"Not_A Brand\";v=\"8\", \"Chromium\";v=\"120\", \"Google Chrome\";v=\"120\"",
    sec_ch_ua_platform := some "\"Android\"",
    sec_ch_ua_mobile := some "?1",
    header_case := "lower", header_order := chromeHeaderOrder120,
    extensions := some chromeExtensionList, ua_minor_variance := true }

def CHROME_ANDROID_124 : BrowserProfile :=
  { CHROME_ANDROID_120 with
    name := "chrome_android_124", impersonate := "chrome124_android"
    user_agent := "Mozilla/5.0 (Linux; Android 14; SM-S918B) AppleWebKit/537.36 (KHTML, like Gecko) Chrome/124.0.6367.82 Mobile Safari/537.36"
    sec_ch_ua := some "\"Chromium\";v=\"124\", \"Google Chrome\";v=\"124\", \"Not-A.Brand\";v=\"99\"" }

def firefoxExtensionList : List Int :=
  [0, 23, 65281, 10, 11, 35, 16, 5, 34, 51, 43, 13, 45, 28, 21]

def firefoxHeaderOrder : List String :=
  ["Host", "User-Agent", "Accept", "Accept-Language", "Accept-Encoding",
   "Connection", "Upgrade-Insecure-Requests", "Sec-Fetch-Dest",
   "Sec-Fetch-Mode", "Sec-Fetch-Site", "Sec-Fetch-User"]

def FIREFOX_120_WIN11 : BrowserProfile :=
  { name := "firefox_120_win11", impersonate := "firefox120",
    user_agent := "Mozilla/5.0 (Windows NT 10.0; Win64; x64; rv:120.0) Gecko/20100101 Firefox/120.0",
    header_case := "title", header_order := firefoxHeaderOrder,
    extensions := some firefoxExtensionList, ua_minor_variance := true,
    extension_variance := 2 }

def FIREFOX_120_WIN10 : BrowserProfile :=
  { FIREFOX_120_WIN11 with name := "firefox_120_win10" }

def FIREFOX_120_MACOS : BrowserProfile :=
  { FIREFOX_120_WIN11 with
    name := "firefox_120_macos"
    user_agent := "Mozilla/5.0 (Macintosh; Intel Mac OS X 10.15; rv:120.0) Gecko/20100101 Firefox/120.0" }

def FIREFOX_120_LINUX : BrowserProfile :=
  { FIREFOX_120_WIN11 with
    name := "firefox_120_linux"
    user_agent := "Mozilla/5.0 (X11; Linux x86_64; rv:120.0) Gecko/20100101 Firefox/120.0" }

def FIREFOX_124_WIN11 : BrowserProfile :=
  { FIREFOX_120_WIN11 with
    name := "firefox_124_win11"
    user_agent := "Mozilla/5.0 (Windows NT 10.0; Win64; x64; rv:124.0) Gecko/20100101 Firefox/124.0" }

def FIREFOX_124_WIN10 : BrowserProfile :=
  { FIREFOX_124_WIN11 with name := "firefox_124_win10" }

def FIREFOX_124_MACOS : BrowserProfile :=
  { FIREFOX_124_WIN11 with
    name := "firefox_124_macos"
    user_agent := "Mozilla/5.0 (Macintosh; Intel Mac OS X 10.15; rv:124.0) Gecko/20100101 Firefox/124.0" }

def FIREFOX_124_LINUX : BrowserProfile :=
  { FIREFOX_124_WIN11 with
    name := "firefox_124_linux"
    user_agent := "Mozilla/5.0 (X11; Linux x86_64; rv:124.0) Gecko/20100101 Firefox/124.0" }

def safariExtensionList : List Int :=
  [0, 23, 65281, 10, 11, 16, 5, 13, 18, 51, 45, 43, 27, 21]

def safariHeaderOrder : List String :=
  ["Host", "Accept", "Accept-Language", "User-Agent", "Accept-Encoding", "Connection"]

def SAFARI_IOS17 : BrowserProfile :=
  { name := "safari_ios17", impersonate := "safari17_0",
    user_agent := "Mozilla/5.0 (iPhone; CPU iPhone OS 17_0 like Mac OS X) AppleWebKit/605.1.15 (KHTML, like Gecko) Version/17.0 Mobile/15E148 Safari/604.1",
    header_case := "title", header_order := safariHeaderOrder,
    extensions := some safariExtensionList }

def SAFARI_IOS16 : BrowserProfile :=
  { SAFARI_IOS17 with
    name := "safari_ios16", impersonate := "safari16"
    user_agent := "Mozilla/5.0 (iPhone; CPU iPhone OS 16_6 like Mac OS X) AppleWebKit/605.1.15 (KHTML, like Gecko) Version/16.6 Mobile/15E148 Safari/604.1" }

def SAFARI_MACOS14 : BrowserProfile :=
  { SAFARI_IOS17 with
    name := "safari_macos14", impersonate := "safari17_0"
    user_agent := "Mozilla/5.0 (Macintosh; Intel Mac OS X 14_0) AppleWebKit/605.1.15 (KHTML, like Gecko) Version/17.0 Safari/605.1.15" }

def SAFARI_MACOS13 : BrowserProfile :=
  { SAFARI_IOS17 with
    name := "safari_macos13", impersonate := "safari16"
    user_agent := "Mozilla/5.0 (Macintosh; Intel Mac OS X 13_6) AppleWebKit/605.1.15 (KHTML, like Gecko) Version/16.6 Safari/605.1.15" }

def EDGE_120_WIN11 : BrowserProfile :=
  { name := "edge_120_win11", impersonate := "edge120",
    user_agent := "Mozilla/5.0 (Windows NT 10.0; Win64; x64) AppleWebKit/537.36 (KHTML, like Gecko) Chrome/120.0.0.0 Safari/537.36 Edg/120.0.0.0",
    sec_ch_ua := some "\"Not_A Brand\";v=\"8\", \"Chromium\";v=\"120\", \"Microsoft Edge\";v=\"120\"",
    sec_ch_ua_platform := some "\"Windows\"",
    header_case := "lower", header_order := chromeHeaderOrder120,
    extensions := some chromeExtensionList, ua_minor_variance := true }

def EDGE_120_WIN10 : BrowserProfile :=
  { EDGE_120_WIN11 with name := "edge_120_win10" }

def EDGE_124_WIN11 : BrowserProfile :=
  { name := "edge_124_win11", impersonate := "edge120",
    user_agent := "Mozilla/5.0 (Windows NT 10.0; Win64; x64) AppleWebKit/537.36 (KHTML, like Gecko) Chrome/124.0.0.0 Safari/537.36 Edg/124.0.0.0",
    sec_ch_ua := some "\"Chromium\";v=\"124\", \"Microsoft Edge\";v=\"124\", \"Not-A.Brand\";v=\"99\"",
    sec_ch_ua_platform := some "\"Windows\"",
    header_case := "lower", header_order := chromeHeaderOrder124,
    extensions := some chromeExtensionList, ua_minor_variance := true }

def EDGE_124_WIN10 : BrowserProfile :=
  { EDGE_124_WIN11 with name := "edge_124_win10" }

/-- `FINGERPRINT_GALLERY`, in source order, aliases included. -/
def FINGERPRINT_GALLERY : List (String × BrowserProfile) :=
  [("chrome_120_win11", CHROME_120_WIN11),
   ("chrome_124_win11", CHROME_124_WIN11),
   ("chrome_125_win11", CHROME_125_WIN11),
   ("chrome_120_win10", CHROME_120_WIN10),
   ("chrome_124_win10", CHROME_124_WIN10),
   ("chrome_125_win10", CHROME_125_WIN10),
   ("chrome_120_macos", CHROME_120_MACOS),
   ("chrome_124_macos", CHROME_124_MACOS),
   ("chrome_125_macos", CHROME_125_MACOS),
   ("chrome_120_linux", CHROME_120_LINUX),
   ("chrome_124_linux", CHROME_124_LINUX),
   ("chrome_125_linux", CHROME_125_LINUX),
   ("chrome_android_120", CHROME_ANDROID_120),
   ("chrome_android_124", CHROME_ANDROID_124),
   ("firefox_120_win11", FIREFOX_120_WIN11),
   ("firefox_124_win11", FIREFOX_124_WIN11),
   ("firefox_120_win10", FIREFOX_120_WIN10),
   ("firefox_124_win10", FIREFOX_124_WIN10),
   ("firefox_120_macos", FIREFOX_120_MACOS),
   ("firefox_124_macos", FIREFOX_124_MACOS),
   ("firefox_120_linux", FIREFOX_120_LINUX),
   ("firefox_124_linux", FIREFOX_124_LINUX),
   ("safari_ios16", SAFARI_IOS16),
   ("safari_ios17", SAFARI_IOS17),
   ("safari_macos13", SAFARI_MACOS13),
   ("safari_macos14", SAFARI_MACOS14),
   ("edge_120_win11", EDGE_120_WIN11),
   ("edge_124_win11", EDGE_124_WIN11),
   ("edge_120_win10", EDGE_120_WIN10),
   ("edge_124_win10", EDGE_124_WIN10),
   ("chrome_latest", CHROME_125_WIN11),
   ("chrome_latest_win10", CHROME_125_WIN10),
   ("chrome_latest_macos", CHROME_125_MACOS),
   ("chrome_latest_linux", CHROME_125_LINUX),
   ("firefox_latest", FIREFOX_124_WIN11),
   ("firefox_latest_linux", FIREFOX_124_LINUX),
   ("safari_latest", SAFARI_IOS17),
   ("edge_latest", EDGE_124_WIN11),
   ("mobile_safari", SAFARI_IOS17),
   ("mobile_chrome", CHROME_ANDROID_124),
   ("chrome_120", CHROME_120_WIN11),
   ("chrome_124", CHROME_124_WIN11),
   ("firefox_120", FIREFOX_120_WIN11),
   ("mobile_safari_17", SAFARI_IOS17),
   ("ios_safari_17", SAFARI_IOS17)]

/-- The legacy `PROFILES` table of `profiles.py` (no `extensions` key, no
`randomization` key, its own shorter header orders). -/
def LEGACY_CHROME_120 : BrowserProfile :=
  { name := "chrome_120", impersonate := "chrome120",
    user_agent := "Mozilla/5.0 (Windows NT 10.0; Win64; x64) AppleWebKit/537.36 (KHTML, like Gecko) Chrome/120.0.0.0 Safari/537.36",
    header_case := "lower",
    header_order := ["host", "user-agent", "accept", "accept-language",
      "accept-encoding", "connection", "upgrade-insecure-requests"] }

def LEGACY_CHROME_124 : BrowserProfile :=
  { name := "chrome_124", impersonate := "chrome124",
    user_agent := "Mozilla/5.0 (Windows NT 10.0; Win64; x64) AppleWebKit/537.36 (KHTML, like Gecko) Chrome/124.0.0.0 Safari/537.36",
    header_case := "lower",
    header_order := ["host", "user-agent", "accept", "accept-language",
      "accept-encoding", "connection", "priority"] }

def LEGACY_FIREFOX_120 : BrowserProfile :=
  { name := "firefox_120", impersonate := "firefox120",
    user_agent := "Mozilla/5.0 (Windows NT 10.0; Win64; x64; rv:120.0) Gecko/20100101 Firefox/120.0",
    header_case := "title",
    header_order := ["Host", "User-Agent", "Accept", "Accept-Language",
      "Accept-Encoding", "Connection", "Upgrade-Insecure-Requests"] }

def LEGACY_MOBILE_SAFARI_17 : BrowserProfile :=
  { name := "mobile_safari_17", impersonate := "safari17_0",
    user_agent := "Mozilla/5.0 (iPhone; CPU iPhone OS 17_0 like Mac OS X) AppleWebKit/605.1.15 (KHTML, like Gecko) Version/17.0 Mobile/15E148 Safari/604.1",
    header_case := "title",
    header_order := ["Host", "Accept", "Accept-Language", "User-Agent",
      "Accept-Encoding", "Connection"] }

def LEGACY_IOS_SAFARI_17 : BrowserProfile :=
  { LEGACY_MOBILE_SAFARI_17 with name := "ios_safari_17", impersonate := "ios17_0" }

def PROFILES : List (String × BrowserProfile) :=
  [("chrome_120", LEGACY_CHROME_120),
   ("chrome_124", LEGACY_CHROME_124),
   ("firefox_120", LEGACY_FIREFOX_120),
   ("mobile_safari_17", LEGACY_MOBILE_SAFARI_17),
   ("ios_safari_17", LEGACY_IOS_SAFARI_17)]

def DEFAULT_PROFILE : String := "chrome_120"

def assocFind (l : List (String × BrowserProfile)) (name : String) : Option BrowserProfile :=
  (l.find? (fun p => p.1 == name)).map Prod.snd

/-- `client._get_profile`: gallery first, then the legacy table, falling back
to the legacy default entry.  The `ciphers`/`tls12_ciphers` conversion only
touches the unmodeled cipher field. -/
def getProfile (name : String) : BrowserProfile :=
  let name := if name = "" then DEFAULT_PROFILE else name
  match assocFind FINGERPRINT_GALLERY name with
  | some p => p
  | none =>
    match assocFind PROFILES name with
    | some p => p
    | none => LEGACY_CHROME_120

/-- `TLSChameleon._profile_exists`. -/
def profileExists (name : String) : Bool :=
  (assocFind PROFILES name).isSome || (assocFind FINGERPRINT_GALLERY name).isSome

def legacyNames : List String := PROFILES.map Prod.fst

def galleryNames : List String := FINGERPRINT_GALLERY.map Prod.fst

theorem gallery_header_case_canonical :
    ∀ p ∈ FINGERPRINT_GALLERY, p.2.header_case = "lower" ∨ p.2.header_case = "title" := by
  decide

theorem legacy_header_case_canonical :
    ∀ p ∈ PROFILES, p.2.header_case = "lower" ∨ p.2.header_case = "title" := by
  decide

theorem assocFind_mem {l : List (String × BrowserProfile)} {name : String}
    {p : BrowserProfile} (h : assocFind l name = some p) : ∃ k, (k, p) ∈ l := by
  rw [assocFind] at h
  rcases Option.map_eq_some'.mp h with ⟨q, hq, hq2⟩
  exact ⟨q.1, by rw [show (q.1, p) = q from by rw [← hq2]]; exact List.mem_of_find?_eq_some hq⟩

theorem getProfile_header_case_canonical (name : String) :
    canonicalMode (getProfile name).header_case := by
  simp only [getProfile]
  rcases hg : assocFind FINGERPRINT_GALLERY (if name = "" then DEFAULT_PROFILE else name)
      with _ | p
  · rcases hl : assocFind PROFILES (if name = "" then DEFAULT_PROFILE else name) with _ | p
    · exact Or.inl rfl
    · rcases assocFind_mem hl with ⟨k, hk⟩
      exact legacy_header_case_canonical (k, p) hk
  · rcases assocFind_mem hg with ⟨k, hk⟩
    exact gallery_header_case_canonical (k, p) hk

/-! ### `TLSChameleon._morph_headers` -/

/-- The lowercased effective order rule: the session override if set, else the
profile's `header_order`; `[]` plays the role of Python's falsy `None`/empty
(the ordering loop is skipped). -/
def morphNormOrder (headerOrderOverride : List String) (profile : BrowserProfile) :
    List String :=
  let order_rule := if headerOrderOverride ≠ [] then headerOrderOverride
    else profile.header_order
  if order_rule ≠ [] then order_rule.map pyLower else []

/-- `_morph_headers(headers, profile)` with the session state's `self.headers`
and `self.header_order` passed explicitly.  (The `if not profile` early return
is unreachable: `_get_profile` never produces an empty profile.) -/
def morphHeaders (sessionHeaders : PyDict) (headerOrderOverride : List String)
    (headers : PyDict) (profile : BrowserProfile) : PyDict :=
  let merged := dictUpdate sessionHeaders headers
  let case_mode := profile.header_case
  let phase := orderPhase case_mode (morphNormOrder headerOrderOverride profile) ([], merged)
  phase.2.foldl (fun acc p => dictSet acc (caseKey case_mode p.1) p.2) phase.1

theorem morphHeaders_eq_fold (s : PyDict) (ho : List String) (h : PyDict)
    (pf : BrowserProfile) :
    morphHeaders s ho h pf =
      List.foldl (fun d p => dictSet d p.1 p.2) []
        (orderIns pf.header_case (morphNormOrder ho pf) (dictUpdate s h) ++
          (orderRem (morphNormOrder ho pf) (dictUpdate s h)).map (casePair pf.header_case)) := by
  simp only [morphHeaders]
  rw [orderPhase_eq]
  rw [List.foldl_append, List.foldl_map]
  rfl

theorem dictLookup_foldl (l : PyDict) (d0 : PyDict) (n : String) :
    dictLookup (l.foldl (fun d p => dictSet d p.1 p.2) d0) n =
      match lastSuch (fun p => if p.1 = n then some p.2 else none) l with
      | some v => some v
      | none => dictLookup d0 n := by
  induction l generalizing d0 with
  | nil => rfl
  | cons p t ih =>
    have hcons := lastSuch_cons (fun p => if p.1 = n then some p.2 else none) p t
    rw [List.foldl_cons, ih (dictSet d0 p.1 p.2), dictLookup_dictSet, hcons]
    rcases ht : lastSuch (fun p => if p.1 = n then some p.2 else none) t with _ | v
    · rw [ht]
      by_cases hnp : n = p.1
      · rw [if_pos hnp, if_pos hnp.symm]
      · rw [if_neg hnp, if_neg (fun h2 => hnp h2.symm)]
    · rw [ht]

theorem orderIns_keys_image (mode : String) (ord : List String) (m : PyDict) :
    ∀ p ∈ orderIns mode ord m, ∃ k0, p.1 = caseKey mode k0 := by
  induction ord generalizing m with
  | nil => intro p hp; cases hp
  | cons key rest ih =>
    intro p hp
    rcases hfind : m.find? (fun p => pyLower p.1 == key) with _ | pr
    · rw [orderIns, hfind] at hp
      exact ih _ p hp
    · rw [orderIns, hfind] at hp
      rcases List.mem_cons.mp hp with h | h
      · exact ⟨pr.1, by rw [h]⟩
      · exact ih _ p h

theorem morph_lookup (s : PyDict) (ho : List String) (h : PyDict)
    (pf : BrowserProfile) (hm : canonicalMode pf.header_case) (q : String) :
    dictLookup (morphHeaders s ho h pf) (caseKey pf.header_case q) =
      lastValClass (pyLower q) (dictUpdate s h) := by
  rw [morphHeaders_eq_fold, dictLookup_foldl]
  have himg : ∀ p ∈ orderIns pf.header_case (morphNormOrder ho pf) (dictUpdate s h) ++
      (orderRem (morphNormOrder ho pf) (dictUpdate s h)).map (casePair pf.header_case),
      ∃ k0, p.1 = caseKey pf.header_case k0 := by
    intro p hp
    rcases List.mem_append.mp hp with h2 | h2
    · exact orderIns_keys_image _ _ _ p h2
    · rcases List.mem_map.mp h2 with ⟨r, _, hr2⟩
      refine ⟨r.1, ?_⟩
      rw [← hr2]
      rfl
  have hcongr : lastSuch (fun p => if p.1 = caseKey pf.header_case q then some p.2 else none)
      (orderIns pf.header_case (morphNormOrder ho pf) (dictUpdate s h) ++
        (orderRem (morphNormOrder ho pf) (dictUpdate s h)).map (casePair pf.header_case)) =
      lastValClass (pyLower q)
        (orderIns pf.header_case (morphNormOrder ho pf) (dictUpdate s h) ++
          (orderRem (morphNormOrder ho pf) (dictUpdate s h)).map (casePair pf.header_case)) := by
    apply lastSuch_congr
    intro p hp
    rcases himg p hp with ⟨k0, hk0⟩
    have hiff : (p.1 = caseKey pf.header_case q) ↔ (pyLower p.1 = pyLower q) := by
      constructor
      · intro he
        rw [he, pyLower_caseKey _ hm]
      · intro he
        rw [hk0] at he ⊢
        rw [pyLower_caseKey _ hm] at he
        exact (caseKey_eq_iff _ hm k0 q).mpr (by rw [← pyLower_caseKey _ hm k0, ← he,
          pyLower_caseKey _ hm])
    by_cases hc : pyLower p.1 = pyLower q
    · rw [if_pos (hiff.mpr hc), if_pos hc]
    · rw [if_neg (fun hh => hc (hiff.mp hh)), if_neg hc]
  rw [hcongr, orderTotal_lastValClass pf.header_case hm (pyLower q)
    (morphNormOrder ho pf) (dictUpdate s h)]
  rcases lastValClass (pyLower q) (dictUpdate s h) with _ | v <;> rfl

theorem dictKeys_foldl_mem (l : PyDict) (d0 : PyDict) (n : String) :
    n ∈ dictKeys (l.foldl (fun d p => dictSet d p.1 p.2) d0) ↔
      n ∈ dictKeys d0 ∨ ∃ p ∈ l, p.1 = n := by
  induction l generalizing d0 with
  | nil => simp
  | cons p t ih =>
    rw [List.foldl_cons, ih (dictSet d0 p.1 p.2)]
    rw [show (n ∈ dictKeys (dictSet d0 p.1 p.2)) = (n ∈ dictKeys d0 ∨ n = p.1) from
      propext (dictKeys_dictSet_mem d0 p.1 p.2 n)]
    simp only [List.mem_cons]
    constructor
    · rintro ((h | h) | ⟨x, hx, hx2⟩)
      · exact Or.inl h
      · exact Or.inr ⟨p, Or.inl rfl, h.symm⟩
      · exact Or.inr ⟨x, Or.inr hx, hx2⟩
    · rintro (h | ⟨x, hx | hx, hx2⟩)
      · exact Or.inl (Or.inl h)
      · exact Or.inl (Or.inr (by rw [← hx2, hx]))
      · exact Or.inr ⟨x, hx, hx2⟩

theorem morph_keys (s : PyDict) (ho : List String) (h : PyDict)
    (pf : BrowserProfile) (n : String) :
    n ∈ dictKeys (morphHeaders s ho h pf) ↔
      ∃ k0 ∈ dictKeys (dictUpdate s h), n = caseKey pf.header_case k0 := by
  rw [morphHeaders_eq_fold, dictKeys_foldl_mem]
  have hperm := orderIns_append_perm pf.header_case (morphNormOrder ho pf) (dictUpdate s h)
  constructor
  · rintro (h2 | ⟨p, hp, hp2⟩)
    · cases h2
    · have hp' : p ∈ (dictUpdate s h).map (casePair pf.header_case) := hperm.mem_iff.mp hp
      rcases List.mem_map.mp hp' with ⟨r, hr, hr2⟩
      refine ⟨r.1, List.mem_map.mpr ⟨r, hr, rfl⟩, ?_⟩
      rw [← hp2, ← hr2]
      rfl
  · rintro ⟨k0, hk0, hn⟩
    rcases List.mem_map.mp hk0 with ⟨r, hr, hr2⟩
    refine Or.inr ⟨casePair pf.header_case r, hperm.mem_iff.mpr (List.mem_map.mpr ⟨r, hr, rfl⟩), ?_⟩
    rw [hn, ← hr2]
    rfl

/-- C3: for every session header mapping, per-request header mapping, and
profile (looked up by name; Python dict keys are unique, and a real header
mapping has case-insensitively distinct names, hence the two `Nodup`
hypotheses), the morphed output contains exactly the union of the session
and per-request header names compared case-insensitively, the per-request
value wins on any collision whose names differ only in case, a session
header whose class is not overridden keeps its value, and every emitted
name is case-normalized per the profile's case mode. -/
theorem c3_header_morph_union (name : String) (sessionHeaders reqHeaders : PyDict)
    (hsc : ((dictKeys sessionHeaders).map pyLower).Nodup)
    (hrc : ((dictKeys reqHeaders).map pyLower).Nodup) :
    (∀ n, n ∈ dictKeys (morphHeaders sessionHeaders [] reqHeaders (getProfile name)) ↔
      ∃ k0, (k0 ∈ dictKeys sessionHeaders ∨ k0 ∈ dictKeys reqHeaders) ∧
        n = caseKey (getProfile name).header_case k0) ∧
    (∀ k v, (k, v) ∈ reqHeaders →
      dictLookup (morphHeaders sessionHeaders [] reqHeaders (getProfile name))
        (caseKey (getProfile name).header_case k) = some v) ∧
    (∀ k v, (k, v) ∈ sessionHeaders →
      (∀ k' ∈ dictKeys reqHeaders, pyLower k' ≠ pyLower k) →
      dictLookup (morphHeaders sessionHeaders [] reqHeaders (getProfile name))
        (caseKey (getProfile name).header_case k) = some v) ∧
    (∀ n, n ∈ dictKeys (morphHeaders sessionHeaders [] reqHeaders (getProfile name)) →
      caseKey (getProfile name).header_case n = n) := by
  have hm := getProfile_header_case_canonical name
  have hs : (dictKeys sessionHeaders).Nodup := List.Nodup.of_map pyLower hsc
  have hr : (dictKeys reqHeaders).Nodup := List.Nodup.of_map pyLower hrc
  refine ⟨?_, ?_, ?_, ?_⟩
  · intro n
    rw [morph_keys]
    constructor
    · rintro ⟨k0, hk0, hn⟩
      exact ⟨k0, (dictUpdate_keys_mem _ _ _).mp hk0, hn⟩
    · rintro ⟨k0, hk0, hn⟩
      exact ⟨k0, (dictUpdate_keys_mem _ _ _).mpr hk0, hn⟩
  · intro k v hkv
    rw [morph_lookup _ _ _ _ hm k]
    exact lastValClass_update_req sessionHeaders reqHeaders k v hs hr hsc hrc hkv
  · intro k v hkv hnc
    rw [morph_lookup _ _ _ _ hm k]
    exact lastValClass_update_session sessionHeaders reqHeaders k v hs hr hsc hkv hnc
  · intro n hn
    rw [morph_keys] at hn
    rcases hn with ⟨k0, _, hn2⟩
    rw [hn2, caseKey_idem _ hm]

/-- Witness for C3 at a concrete title-cased profile: the per-request value
for `User-Agent` wins over the session's differently-cased `user-agent`. -/
theorem c3_header_morph_union_witness :
    dictLookup (morphHeaders [("user-agent", "curl"), ("Accept", "x")] []
        [("User-Agent", "Moz")] (getProfile "firefox_120"))
      (caseKey (getProfile "firefox_120").header_case "User-Agent") = some "Moz" :=
  (c3_header_morph_union "firefox_120" [("user-agent", "curl"), ("Accept", "x")]
      [("User-Agent", "Moz")] (by decide) (by decide)).2.1 "User-Agent" "Moz" (by decide)

/-! ### `fingerprint_gallery.randomize_profile`

The User-Agent tweak is `re.sub(r'\.(\d+)(?=\s|$)', bump_version, ua, count=1)`:
find the leftmost `.` followed by a maximal nonempty digit run whose next
character is whitespace or the end of the string, and replace `.N` by
`.max(0, N + delta)` where `delta` is drawn from `[-1, 0, 0, 1, 1, 2]`.
(Backtracking cannot produce a different match: a shorter digit run is
followed by a digit, which the lookahead rejects.)  The extension tweak
performs `min(variance, len - 1)` swaps of adjacent entries at indices drawn
by `randint(0, len - 2)`, supplied here by the `swaps` oracle. -/

def isPySpace (c : Char) : Bool :=
  c == ' ' || c == '\t' || c == '\n' || c == '\r' || c == '\x0b' || c == '\x0c'

def digitsToNat (ds : List Char) : Nat :=
  ds.foldl (fun n c => n * 10 + (c.toNat - 48)) 0

def natToDigits (n : Nat) : List Char := (Nat.repr n).data

def uaBumpAux (delta : Int) : List Char → Option (List Char)
  | [] => none
  | c :: rest =>
    if c = '.' then
      let ds := rest.takeWhile Char.isDigit
      let after := rest.drop ds.length
      if ds ≠ [] ∧ (after = [] ∨ isPySpace (after.headD ' ')) then
        some ('.' :: natToDigits (((digitsToNat ds : Int) + delta).toNat) ++ after)
      else
        (uaBumpAux delta rest).map (c :: ·)
    else
      (uaBumpAux delta rest).map (c :: ·)

def pyBumpFirstVersion (delta : Int) (s : String) : String :=
  match uaBumpAux delta s.data with
  | some l => ⟨l⟩
  | none => s

/-- One `exts[i], exts[i+1] = exts[i+1], exts[i]` swap; out-of-range indices
cannot occur (`randint(0, len - 2)`) and leave the list unchanged. -/
def swapAdj {α : Type} : List α → Nat → List α
  | [], _ => []
  | [a], _ => [a]
  | a :: b :: t, 0 => b :: a :: t
  | a :: t, i + 1 => a :: swapAdj t i

def applySwaps {α : Type} (l : List α) (count : Nat) (swaps : Nat → Nat) : List α :=
  (List.range count).foldl (fun acc j => swapAdj acc (swaps j)) l

def randomizeProfile (p : BrowserProfile) (delta : Int) (swaps : Nat → Nat) :
    BrowserProfile :=
  let p := if p.ua_minor_variance then
      { p with user_agent := pyBumpFirstVersion delta p.user_agent }
    else p
  if p.extension_variance > 0 then
    match p.extensions with
    | some exts =>
      { p with
        extensions := some (applySwaps exts (min p.extension_variance (exts.length - 1)) swaps) }
    | none => p
  else p

theorem swapAdj_perm {α : Type} (l : List α) (i : Nat) : (swapAdj l i).Perm l := by
  induction l generalizing i with
  | nil => exact List.Perm.refl []
  | cons a t ih =>
    cases t with
    | nil =>
      cases i <;> exact List.Perm.refl [a]
    | cons b t2 =>
      cases i with
      | zero => exact List.Perm.swap a b t2
      | succ j => exact (ih j).cons a

theorem applySwaps_perm {α : Type} (l : List α) (count : Nat) (swaps : Nat → Nat) :
    (applySwaps l count swaps).Perm l := by
  induction count with
  | zero => exact List.Perm.refl l
  | succ n ih =>
    rw [applySwaps, List.range_succ, List.foldl_append, List.foldl_cons, List.foldl_nil]
    exact (swapAdj_perm _ _).trans ih

/-- C8: for every profile with extension-order variance greater than zero and
an extension list present, the randomized variant's extension sequence is a
permutation of the original produced by `min(variance, len - 1) ≤ variance`
adjacent-pair swaps; the multiset of extension ids is exactly preserved. -/
theorem c8_extension_reorder_perm (p : BrowserProfile) (delta : Int) (swaps : Nat → Nat)
    (exts : List Int) (hv : p.extension_variance > 0) (hx : p.extensions = some exts) :
    (randomizeProfile p delta swaps).extensions =
      some (applySwaps exts (min p.extension_variance (exts.length - 1)) swaps) ∧
    (applySwaps exts (min p.extension_variance (exts.length - 1)) swaps).Perm exts ∧
    min p.extension_variance (exts.length - 1) ≤ p.extension_variance := by
  refine ⟨?_, applySwaps_perm exts _ swaps, Nat.min_le_left _ _⟩
  simp only [randomizeProfile]
  set q := (if p.ua_minor_variance then
      { p with user_agent := pyBumpFirstVersion delta p.user_agent }
    else p) with hq
  have hqe : q.extensions = some exts := by
    rw [hq]
    cases p.ua_minor_variance <;> simp [hx]
  have hqv : q.extension_variance = p.extension_variance := by
    rw [hq]
    cases p.ua_minor_variance <;> simp
  rw [if_pos (show q.extension_variance > 0 from hqv ▸ hv), hqe]
  simp [hqv]

/-- Witness for C8 at the Firefox profile (extension variance 2) with the
identity swap oracle. -/
theorem c8_extension_reorder_perm_witness :
    (randomizeProfile FIREFOX_120_WIN11 0 (fun _ => 0)).extensions =
      some (applySwaps firefoxExtensionList
        (min FIREFOX_120_WIN11.extension_variance (firefoxExtensionList.length - 1))
        (fun _ => 0)) ∧
    (applySwaps firefoxExtensionList
      (min FIREFOX_120_WIN11.extension_variance (firefoxExtensionList.length - 1))
      (fun _ => 0)).Perm firefoxExtensionList ∧
    min FIREFOX_120_WIN11.extension_variance (firefoxExtensionList.length - 1) ≤
      FIREFOX_120_WIN11.extension_variance :=
  c8_extension_reorder_perm FIREFOX_120_WIN11 0 (fun _ => 0) firefoxExtensionList
    (by decide) (by decide)

/-- C7: evaluating `randomize_profile`'s User-Agent bump on the Chrome 120
profile with the draw `delta = +1` (one of `random.choice([-1,0,0,1,1,2])`).
The regex `\.(\d+)(?=\s|$)` with `count=1` matches the first `.digits` that
precedes a space — which in every catalog User-Agent is the version of the
leading `Mozilla/5.0` token — so the output is `Mozilla/5.1 ...` while the
browser-family version `Chrome/120.0.0.0` is left untouched, contradicting
both the claim and the source's own comment (`tweak patch version (last
number)`). -/
theorem c7_ua_bump_hits_mozilla_token :
    CHROME_120_WIN11.ua_minor_variance = true ∧
    CHROME_120_WIN11.user_agent =
      "Mozilla/5.0 (Windows NT 10.0; Win64; x64) AppleWebKit/537.36 (KHTML, like Gecko) Chrome/120.0.0.0 Safari/537.36" ∧
    (randomizeProfile CHROME_120_WIN11 1 (fun _ => 0)).user_agent =
      "Mozilla/5.1 (Windows NT 10.0; Win64; x64) AppleWebKit/537.36 (KHTML, like Gecko) Chrome/120.0.0.0 Safari/537.36" := by
  refine ⟨rfl, rfl, ?_⟩
  decide

/-! ### Responses and `TLSChameleon._is_block`

A response exposes a status code, body text and headers.  The wrapped
`ChameleonResponse` defines no `__bool__`, so a present response is always
truthy; `resp : Option Response` with `none` for Python `None` captures the
`if not resp` / `if resp` tests.  A caller-supplied detector returning
`none` models a predicate that raised (swallowed, falling through to the
built-in rules). -/

structure Response where
  status_code : Option Int
  text : String
  headers : PyDict

def blockSubstrings : List String :=
  ["access denied", "error 1020", "attention required", "bot detected", "cloudflare"]

def isBlockStandard (r : Response) : Bool :=
  if r.status_code = some 403 ∨ r.status_code = some 429 ∨ r.status_code = some 1020 then
    true
  else if blockSubstrings.any (fun x => pyContainsB x (pyLower r.text)) then
    true
  else
    false

def isBlock (detector : Option (Response → Option Bool)) (resp : Option Response) : Bool :=
  match resp with
  | none => true
  | some r =>
    match detector with
    | some f =>
      match f r with
      | some b => b
      | none => isBlockStandard r
    | none => isBlockStandard r

/-! ### Session state and construction

Fields of `TLSChameleon.__init__` that carry no behavior the claims mention
(`engine`, `timeout`, `verify`, `ghost_mode`, `randomize_ciphers`,
`http2_priority`, the cached `_current_profile_data`) are elided; the
underscored cursors `_rotate_index`/`_proxy_index` are `rotate_index`/
`proxy_index`.  `proxies` keeps the caller's proxy as an opaque string. -/

structure SessionState where
  profile_name : String
  randomize : Bool
  headers : PyDict
  proxies : Option String
  rotate_profiles : List String
  on_block : String
  max_retries : Int
  retry_backoff_base : ℚ
  retry_jitter : ℚ
  block_detector : Option (Response → Option Bool)
  proxies_pool : List String
  header_order : List String
  http2 : Option Bool
  rotate_index : Int
  proxy_index : Int

/-- Python `a or b` for optional strings (`""` and `None` are falsy). -/
def strOr (o : Option String) (d : String) : String :=
  match o with
  | some s => if s = "" then d else s
  | none => d

/-- `TLSChameleon._apply_site_preset`. -/
def applySitePreset (st : SessionState) (site : String) : SessionState :=
  let s := pyLower site
  if s = "cloudflare" then
    let st := if st.rotate_profiles = [] then
        { st with rotate_profiles := ["chrome_124", "chrome_120", "mobile_safari_17"] }
      else st
    let st := { st with
      max_retries := max st.max_retries 3
      retry_backoff_base := min st.retry_backoff_base (0.8 : ℚ)
      retry_jitter := max st.retry_jitter (0.4 : ℚ) }
    let st := if st.http2 = none then { st with http2 := some true } else st
    if st.header_order = [] then
      { st with
        header_order := ["User-Agent", "Accept", "Accept-Language",
          "Accept-Encoding", "Connection"] }
    else st
  else st

/-- The header-mutating effect of `TLSChameleon._init_session`: merge the
(possibly randomized) profile's User-Agent and client-hint headers into the
session headers when absent.  The engine/transport object it also rebuilds is
outside the model.  `delta`/`swaps` stand for the `randomize_profile` draws. -/
def initSessionHeaders (st : SessionState) (delta : Int) (swaps : Nat → Nat) :
    SessionState :=
  let profile := getProfile st.profile_name
  let profile := if st.randomize then randomizeProfile profile delta swaps else profile
  let hs := st.headers
  let hs := if profile.user_agent ≠ "" ∧ "User-Agent" ∉ dictKeys hs then
      dictSet hs "User-Agent" profile.user_agent
    else hs
  let hs := match profile.sec_ch_ua with
    | some v => if "Sec-CH-UA" ∉ dictKeys hs then dictSet hs "Sec-CH-UA" v else hs
    | none => hs
  let hs := match profile.sec_ch_ua_platform with
    | some v => if "Sec-CH-UA-Platform" ∉ dictKeys hs then
        dictSet hs "Sec-CH-UA-Platform" v
      else hs
    | none => hs
  let hs := match profile.sec_ch_ua_mobile with
    | some v => if v ≠ "" ∧ "Sec-CH-UA-Mobile" ∉ dictKeys hs then
        dictSet hs "Sec-CH-UA-Mobile" v
      else hs
    | none => hs
  { st with headers := hs }

/-- `TLSChameleon.__init__`: profile takes precedence over fingerprint, an
unknown name silently falls back to `DEFAULT_PROFILE`, cursors start at `-1`,
the site preset is applied when `site` is truthy, then the engine session is
initialized (its header merging is `initSessionHeaders`).  Construction never
fails on a profile name. -/
def mkSession (fingerprint profile : Option String) (randomize : Bool)
    (headers : PyDict) (proxies : Option String) (rotate_profiles : List String)
    (on_block : String) (max_retries : Int) (retry_backoff_base retry_jitter : ℚ)
    (block_detector : Option (Response → Option Bool)) (site : Option String)
    (proxies_pool : List String) (header_order : List String) (http2 : Option Bool)
    (delta0 : Int) (swaps0 : Nat → Nat) : SessionState :=
  let requested := strOr profile (strOr fingerprint DEFAULT_PROFILE)
  let name := if profileExists requested then requested else DEFAULT_PROFILE
  let st : SessionState := {
    profile_name := name
    randomize := randomize
    headers := headers
    proxies := proxies
    rotate_profiles := rotate_profiles
    on_block := on_block
    max_retries := max_retries
    retry_backoff_base := retry_backoff_base
    retry_jitter := retry_jitter
    block_detector := block_detector
    proxies_pool := proxies_pool
    header_order := header_order
    http2 := http2
    rotate_index := -1
    proxy_index := -1 }
  let st := match site with
    | some s => if s ≠ "" then applySitePreset st s else st
    | none => st
  initSessionHeaders st delta0 swaps0

/-! ### Rotation -/

/-- The candidate list of `_rotate_profile`'s random branch:
`[n for n in PROFILES.keys() if n != self.profile_name]`. -/
def rotateChoices (st : SessionState) : List String :=
  legacyNames.filter (fun n => n != st.profile_name)

/-- `TLSChameleon._rotate_profile`; `pick` stands for the `random.choice`
draw, reduced modulo the candidate count to stay a valid index. -/
def rotateProfile (st : SessionState) (pick : Nat) : SessionState :=
  if st.rotate_profiles ≠ [] then
    let idx := (st.rotate_index + 1) % (st.rotate_profiles.length : Int)
    { st with
      rotate_index := idx
      profile_name := st.rotate_profiles.getD idx.toNat "" }
  else
    let names := rotateChoices st
    if names = [] then st
    else { st with profile_name := names.getD (pick % names.length) "" }

/-- `TLSChameleon._rotate_proxy`. -/
def rotateProxy (st : SessionState) : SessionState :=
  if st.proxies_pool = [] then st
  else { st with proxy_index := (st.proxy_index + 1) % (st.proxies_pool.length : Int) }

/-- `TLSChameleon._current_proxy`: when a pool is configured this normalizes a
negative cursor to `0` (a state write) and returns the pool entry; otherwise
`self.proxies or None`. -/
def currentProxy (st : SessionState) : SessionState × Option String :=
  if st.proxies_pool ≠ [] then
    let st := if st.proxy_index < 0 then { st with proxy_index := 0 } else st
    (st, some (st.proxies_pool.getD st.proxy_index.toNat ""))
  else
    (st, st.proxies)

/-! ### WAF adaptation (`_check_waf_and_adapt`, `_rotate_to_modern_chrome`) -/

/-- `{k.lower(): v for k, v in resp.headers.items()}`. -/
def respHeadersLower (r : Response) : PyDict :=
  r.headers.foldl (fun acc p => dictSet acc (pyLower p.1) p.2) []

def rotateToModernChrome (st : SessionState) (pick : Nat) (delta : Int)
    (swaps : Nat → Nat) : SessionState :=
  let chromes := legacyNames.filter (fun n => pyContainsB "chrome" n)
  if chromes = [] then st
  else initSessionHeaders
    { st with profile_name := chromes.getD (pick % chromes.length) "" } delta swaps

/-- The detection half of `_check_waf_and_adapt` (the spec's
`WafAdapter.inspect`). -/
def wafDetect (r : Response) : Option String :=
  let hs := respHeadersLower r
  let server := pyLower ((dictLookup hs "server").getD "")
  if pyContainsB "cloudflare" server || (dictLookup hs "cf-ray").isSome then
    some "cloudflare"
  else if pyContainsB "akamai" server || (dictLookup hs "x-akamai-transformed").isSome then
    some "akamai"
  else if (dictLookup hs "datadome").isSome then
    some "datadome"
  else if (dictLookup hs "x-amz-cf-id").isSome then
    some "cloudfront"
  else none

def wafAdapt (st : SessionState) (r : Response) (pick : Nat) (delta : Int)
    (swaps : Nat → Nat) : SessionState :=
  match wafDetect r with
  | some w =>
    if w = "cloudflare" then
      let st := { st with http2 := some true }
      if pyContainsB "chrome" st.profile_name then st
      else rotateToModernChrome st pick delta swaps
    else st
  | none => st

/-! ### Frame lemmas: which fields each operation leaves unchanged -/

theorem initSessionHeaders_pres (st : SessionState) (d : Int) (sw : Nat → Nat) :
    (initSessionHeaders st d sw).max_retries = st.max_retries ∧
    (initSessionHeaders st d sw).on_block = st.on_block ∧
    (initSessionHeaders st d sw).block_detector = st.block_detector ∧
    (initSessionHeaders st d sw).rotate_index = st.rotate_index ∧
    (initSessionHeaders st d sw).proxy_index = st.proxy_index ∧
    (initSessionHeaders st d sw).rotate_profiles = st.rotate_profiles ∧
    (initSessionHeaders st d sw).proxies_pool = st.proxies_pool :=
  ⟨rfl, rfl, rfl, rfl, rfl, rfl, rfl⟩

theorem rotateToModernChrome_pres (st : SessionState) (pick : Nat) (d : Int)
    (sw : Nat → Nat) :
    (rotateToModernChrome st pick d sw).max_retries = st.max_retries ∧
    (rotateToModernChrome st pick d sw).on_block = st.on_block ∧
    (rotateToModernChrome st pick d sw).block_detector = st.block_detector ∧
    (rotateToModernChrome st pick d sw).rotate_index = st.rotate_index ∧
    (rotateToModernChrome st pick d sw).proxy_index = st.proxy_index ∧
    (rotateToModernChrome st pick d sw).rotate_profiles = st.rotate_profiles ∧
    (rotateToModernChrome st pick d sw).proxies_pool = st.proxies_pool := by
  rw [rotateToModernChrome]
  by_cases h : legacyNames.filter (fun n => pyContainsB "chrome" n) = []
  · rw [if_pos h]
    exact ⟨rfl, rfl, rfl, rfl, rfl, rfl, rfl⟩
  · rw [if_neg h]
    exact ⟨rfl, rfl, rfl, rfl, rfl, rfl, rfl⟩

theorem wafAdapt_pres (st : SessionState) (r : Response) (pick : Nat) (d : Int)
    (sw : Nat → Nat) :
    (wafAdapt st r pick d sw).max_retries = st.max_retries ∧
    (wafAdapt st r pick d sw).on_block = st.on_block ∧
    (wafAdapt st r pick d sw).block_detector = st.block_detector ∧
    (wafAdapt st r pick d sw).rotate_index = st.rotate_index ∧
    (wafAdapt st r pick d sw).proxy_index = st.proxy_index ∧
    (wafAdapt st r pick d sw).rotate_profiles = st.rotate_profiles ∧
    (wafAdapt st r pick d sw).proxies_pool = st.proxies_pool := by
  rcases hwd : wafDetect r with _ | w
  · simp only [wafAdapt, hwd]
    exact ⟨trivial, trivial, trivial, trivial, trivial, trivial, trivial⟩
  · simp only [wafAdapt, hwd]
    split_ifs with hw hc
    · exact ⟨rfl, rfl, rfl, rfl, rfl, rfl, rfl⟩
    · exact rotateToModernChrome_pres _ pick d sw
    · exact ⟨rfl, rfl, rfl, rfl, rfl, rfl, rfl⟩

theorem rotateProfile_pres (st : SessionState) (pick : Nat) :
    (rotateProfile st pick).max_retries = st.max_retries ∧
    (rotateProfile st pick).on_block = st.on_block ∧
    (rotateProfile st pick).block_detector = st.block_detector ∧
    (rotateProfile st pick).proxy_index = st.proxy_index ∧
    (rotateProfile st pick).rotate_profiles = st.rotate_profiles ∧
    (rotateProfile st pick).proxies_pool = st.proxies_pool := by
  rw [rotateProfile]
  by_cases h : st.rotate_profiles ≠ []
  · rw [if_pos h]
    exact ⟨rfl, rfl, rfl, rfl, rfl, rfl⟩
  · rw [if_neg h]
    by_cases h2 : rotateChoices st = []
    · rw [if_pos h2]
      exact ⟨rfl, rfl, rfl, rfl, rfl, rfl⟩
    · rw [if_neg h2]
      exact ⟨rfl, rfl, rfl, rfl, rfl, rfl⟩

theorem rotateProxy_pres (st : SessionState) :
    (rotateProxy st).max_retries = st.max_retries ∧
    (rotateProxy st).on_block = st.on_block ∧
    (rotateProxy st).block_detector = st.block_detector ∧
    (rotateProxy st).rotate_index = st.rotate_index ∧
    (rotateProxy st).rotate_profiles = st.rotate_profiles ∧
    (rotateProxy st).proxies_pool = st.proxies_pool := by
  rw [rotateProxy]
  by_cases h : st.proxies_pool = []
  · rw [if_pos h]
    exact ⟨rfl, rfl, rfl, rfl, rfl, rfl⟩
  · rw [if_neg h]
    exact ⟨rfl, rfl, rfl, rfl, rfl, rfl⟩

theorem currentProxy_pres (st : SessionState) :
    (currentProxy st).1.max_retries = st.max_retries ∧
    (currentProxy st).1.on_block = st.on_block ∧
    (currentProxy st).1.block_detector = st.block_detector ∧
    (currentProxy st).1.rotate_index = st.rotate_index ∧
    (currentProxy st).1.rotate_profiles = st.rotate_profiles ∧
    (currentProxy st).1.proxies_pool = st.proxies_pool := by
  rw [currentProxy]
  by_cases h : st.proxies_pool ≠ []
  · rw [if_pos h]
    by_cases h2 : st.proxy_index < 0
    · rw [if_pos h2]
      exact ⟨rfl, rfl, rfl, rfl, rfl, rfl⟩
    · rw [if_neg h2]
      exact ⟨rfl, rfl, rfl, rfl, rfl, rfl⟩
  · rw [if_neg h]
    exact ⟨rfl, rfl, rfl, rfl, rfl, rfl⟩

/-! ### The retry loop of `TLSChameleon.request`

The transport is an oracle from attempt number to a response or a raised
error (`curl`/`httpx` exceptions are opaque `Nat` codes).  `Oracle` bundles
the random draws the loop body can consume at each attempt.  `loopStep` is
one iteration of the `while True:` body up to the terminate/continue
decision; `loopRotate` is the rotation tail executed when the loop retries
(`time.sleep(delay + jitter)` does not change session state and is elided).
`requestLoop` returns the outcome together with the trace of header
mappings passed to the transport, one entry per attempt. -/

structure Oracle where
  wafPick : Nat → Nat
  wafDelta : Nat → Int
  wafSwaps : Nat → Nat → Nat
  rotPick : Nat → Nat
  rotDelta : Nat → Int
  rotSwaps : Nat → Nat → Nat

inductive ReqOutcome where
  | returned (resp : Option Response)
  | raised (e : Nat)

def loopRotate (orc : Oracle) (attempt : Nat) (st1 : SessionState) : SessionState :=
  let st2 := if st1.on_block = "rotate" ∨ st1.on_block = "both" then
      initSessionHeaders (rotateProfile st1 (orc.rotPick attempt)) (orc.rotDelta attempt)
        (orc.rotSwaps attempt)
    else st1
  if st2.on_block = "proxy" ∨ st2.on_block = "both" then
    let stq := rotateProxy st2
    let cp := currentProxy stq
    { cp.1 with proxies := cp.2 }
  else st2

def loopStep (transport : Nat → Except Nat Response) (orc : Oracle) (attempt : Nat)
    (st : SessionState) : Except ReqOutcome SessionState :=
  let stp := (currentProxy st).1
  match transport attempt with
  | .error e =>
    if (attempt : Int) ≥ stp.max_retries then .error (.raised e)
    else if stp.on_block = "none" ∨ (attempt : Int) ≥ stp.max_retries then
      .error (.returned none)
    else .ok (loopRotate orc attempt stp)
  | .ok r =>
    let st1 := wafAdapt stp r (orc.wafPick attempt) (orc.wafDelta attempt)
      (orc.wafSwaps attempt)
    let blocked := isBlock st1.block_detector (some r)
    if blocked = false ∨ st1.on_block = "none" ∨ (attempt : Int) ≥ st1.max_retries then
      .error (.returned (some r))
    else .ok (loopRotate orc attempt st1)

theorem loopRotate_pres (orc : Oracle) (attempt : Nat) (st1 : SessionState) :
    (loopRotate orc attempt st1).max_retries = st1.max_retries ∧
    (loopRotate orc attempt st1).on_block = st1.on_block ∧
    (loopRotate orc attempt st1).block_detector = st1.block_detector := by
  rw [loopRotate]
  by_cases h1 : st1.on_block = "rotate" ∨ st1.on_block = "both"
  · rw [if_pos h1]
    have hi := initSessionHeaders_pres (rotateProfile st1 (orc.rotPick attempt))
      (orc.rotDelta attempt) (orc.rotSwaps attempt)
    have hr := rotateProfile_pres st1 (orc.rotPick attempt)
    by_cases h2 : (initSessionHeaders (rotateProfile st1 (orc.rotPick attempt))
        (orc.rotDelta attempt) (orc.rotSwaps attempt)).on_block = "proxy" ∨
        (initSessionHeaders (rotateProfile st1 (orc.rotPick attempt))
        (orc.rotDelta attempt) (orc.rotSwaps attempt)).on_block = "both"
    · rw [if_pos h2]
      have hq := rotateProxy_pres (initSessionHeaders (rotateProfile st1 (orc.rotPick attempt))
        (orc.rotDelta attempt) (orc.rotSwaps attempt))
      have hcp := currentProxy_pres (rotateProxy (initSessionHeaders
        (rotateProfile st1 (orc.rotPick attempt)) (orc.rotDelta attempt) (orc.rotSwaps attempt)))
      refine ⟨?_, ?_, ?_⟩
      · show (currentProxy _).1.max_retries = _
        rw [hcp.1, hq.1, hi.1, hr.1]
      · show (currentProxy _).1.on_block = _
        rw [hcp.2.1, hq.2.1, hi.2.1, hr.2.1]
      · show (currentProxy _).1.block_detector = _
        rw [hcp.2.2.1, hq.2.2.1, hi.2.2.1, hr.2.2.1]
    · rw [if_neg h2]
      exact ⟨hi.1.trans hr.1, (hi.2.1).trans hr.2.1, (hi.2.2.1).trans hr.2.2.1⟩
  · rw [if_neg h1]
    by_cases h2 : st1.on_block = "proxy" ∨ st1.on_block = "both"
    · rw [if_pos h2]
      have hq := rotateProxy_pres st1
      have hcp := currentProxy_pres (rotateProxy st1)
      refine ⟨?_, ?_, ?_⟩
      · show (currentProxy _).1.max_retries = _
        rw [hcp.1, hq.1]
      · show (currentProxy _).1.on_block = _
        rw [hcp.2.1, hq.2.1]
      · show (currentProxy _).1.block_detector = _
        rw [hcp.2.2.1, hq.2.2.1]
    · rw [if_neg h2]
      exact ⟨rfl, rfl, rfl⟩

theorem loopStep_ok (transport : Nat → Except Nat Response) (orc : Oracle)
    (attempt : Nat) (st st3 : SessionState)
    (h : loopStep transport orc attempt st = .ok st3) :
    st3.max_retries = st.max_retries ∧ st3.on_block = st.on_block ∧
    st3.block_detector = st.block_detector ∧ (attempt : Int) < st.max_retries := by
  have hp := currentProxy_pres st
  rcases htr : transport attempt with e | r
  · simp only [loopStep, htr] at h
    by_cases h1 : (attempt : Int) ≥ (currentProxy st).1.max_retries
    · rw [if_pos h1] at h
      cases h
    · rw [if_neg h1] at h
      by_cases h2 : (currentProxy st).1.on_block = "none" ∨
          (attempt : Int) ≥ (currentProxy st).1.max_retries
      · rw [if_pos h2] at h
        cases h
      · rw [if_neg h2] at h
        have hlr := loopRotate_pres orc attempt (currentProxy st).1
        have h3 : st3 = loopRotate orc attempt (currentProxy st).1 :=
          (Except.ok.inj h).symm
        rw [h3]
        refine ⟨hlr.1.trans hp.1, hlr.2.1.trans hp.2.1, hlr.2.2.trans hp.2.2.1, ?_⟩
        rw [← hp.1]
        omega
  · simp only [loopStep, htr] at h
    by_cases hb : isBlock (wafAdapt (currentProxy st).1 r (orc.wafPick attempt)
        (orc.wafDelta attempt) (orc.wafSwaps attempt)).block_detector (some r) = false ∨
        (wafAdapt (currentProxy st).1 r (orc.wafPick attempt) (orc.wafDelta attempt)
          (orc.wafSwaps attempt)).on_block = "none" ∨
        (attempt : Int) ≥ (wafAdapt (currentProxy st).1 r (orc.wafPick attempt)
          (orc.wafDelta attempt) (orc.wafSwaps attempt)).max_retries
    · rw [if_pos hb] at h
      cases h
    · rw [if_neg hb] at h
      have hw := wafAdapt_pres (currentProxy st).1 r (orc.wafPick attempt)
        (orc.wafDelta attempt) (orc.wafSwaps attempt)
      have hlr := loopRotate_pres orc attempt (wafAdapt (currentProxy st).1 r
        (orc.wafPick attempt) (orc.wafDelta attempt) (orc.wafSwaps attempt))
      have h3 : st3 = loopRotate orc attempt (wafAdapt (currentProxy st).1 r
          (orc.wafPick attempt) (orc.wafDelta attempt) (orc.wafSwaps attempt)) :=
        (Except.ok.inj h).symm
      push_neg at hb
      rw [h3]
      refine ⟨(hlr.1.trans hw.1).trans hp.1, (hlr.2.1.trans hw.2.1).trans hp.2.1,
        (hlr.2.2.trans hw.2.2.1).trans hp.2.2.1, ?_⟩
      have := hb.2.2
      rw [hw.1, hp.1] at this
      omega

def requestLoop (transport : Nat → Except Nat Response) (orc : Oracle)
    (st : SessionState) (reqHeaders : PyDict) (attempt : Nat) :
    ReqOutcome × List PyDict :=
  match hstep : loopStep transport orc attempt st with
  | .error out => (out, [reqHeaders])
  | .ok st3 =>
    let rest := requestLoop transport orc st3 reqHeaders (attempt + 1)
    (rest.1, reqHeaders :: rest.2)
termination_by (st.max_retries + 1 - (attempt : Int)).toNat
decreasing_by
  have h := loopStep_ok transport orc attempt st st3 hstep
  omega

/-- `TLSChameleon.request`: the headers are morphed once, before the loop,
from `_get_profile(self.profile_name)` (the base profile, not the randomized
variant cached by `_init_session`), then the loop runs from attempt 0.
(Ghost-mode delays/padding and `mimic_assets` background fetches touch no
session state read here and are elided.) -/
def request (transport : Nat → Except Nat Response) (orc : Oracle)
    (st : SessionState) (kwargsHeaders : PyDict) : ReqOutcome × List PyDict :=
  let profile := getProfile st.profile_name
  let reqHeaders := morphHeaders st.headers st.header_order kwargsHeaders profile
  requestLoop transport orc st reqHeaders 0

/-! ### Claim theorems -/

/-- C2: with no caller-supplied predicate configured, the block classifier
returns `true` for status 403, 429 or 1020 regardless of body, returns
`true` when there is no response at all, and returns `false` for a status
200 response whose lowercased body contains none of the fixed
block-indicator substrings. -/
theorem c2_block_classifier (r : Response) :
    ((r.status_code = some 403 ∨ r.status_code = some 429 ∨ r.status_code = some 1020) →
      isBlock none (some r) = true) ∧
    isBlock none none = true ∧
    (r.status_code = some 200 →
      (∀ x ∈ blockSubstrings, pyContainsB x (pyLower r.text) = false) →
      isBlock none (some r) = false) := by
  refine ⟨?_, rfl, ?_⟩
  · intro h
    simp only [isBlock, isBlockStandard, if_pos h]
  · intro h200 hbody
    simp only [isBlock, isBlockStandard]
    rw [if_neg, if_neg]
    · intro hany
      rcases List.any_eq_true.mp hany with ⟨x, hx, hpx⟩
      rw [hbody x hx] at hpx
      cases hpx
    · rintro (h | h | h) <;> rw [h200] at h <;> exact absurd (Option.some.inj h) (by decide)

/-- Witness for C2 at concrete responses. -/
theorem c2_block_classifier_witness :
    isBlock none (some ⟨some 403, "hello", []⟩) = true ∧
    isBlock none none = true ∧
    isBlock none (some ⟨some 200, "all good", []⟩) = false :=
  ⟨(c2_block_classifier ⟨some 403, "hello", []⟩).1 (Or.inl rfl),
   (c2_block_classifier ⟨some 403, "hello", []⟩).2.1,
   (c2_block_classifier ⟨some 200, "all good", []⟩).2.2 rfl (by decide)⟩

theorem applySitePreset_pres (st : SessionState) (s : String) :
    (applySitePreset st s).rotate_index = st.rotate_index ∧
    (applySitePreset st s).proxy_index = st.proxy_index ∧
    (applySitePreset st s).profile_name = st.profile_name ∧
    (applySitePreset st s).proxies_pool = st.proxies_pool := by
  simp only [applySitePreset]
  split_ifs <;> exact ⟨rfl, rfl, rfl, rfl⟩

/-- C9: construction never fails on a profile name: the active profile is the
requested name (profile over fingerprint, empty-string falsy) when it exists
in the legacy table or the gallery, and the fixed default `"chrome_120"`
otherwise — and that default is itself a catalog profile. -/
theorem c9_unknown_profile_fallback (fingerprint profile : Option String)
    (randomize : Bool) (headers : PyDict) (proxies : Option String)
    (rot : List String) (ob : String) (mr : Int) (bb jit : ℚ)
    (det : Option (Response → Option Bool)) (site : Option String)
    (pool : List String) (ho : List String) (h2 : Option Bool)
    (d0 : Int) (sw0 : Nat → Nat) :
    (mkSession fingerprint profile randomize headers proxies rot ob mr bb jit det site
        pool ho h2 d0 sw0).profile_name =
      (if profileExists (strOr profile (strOr fingerprint DEFAULT_PROFILE)) then
        strOr profile (strOr fingerprint DEFAULT_PROFILE)
      else "chrome_120") ∧
    profileExists "chrome_120" = true := by
  constructor
  · simp only [mkSession]
    rcases site with _ | s
    · rfl
    · dsimp only
      by_cases hs : s ≠ ""
      · rw [if_pos hs]
        show (applySitePreset _ s).profile_name = _
        rw [(applySitePreset_pres _ s).2.2.1]
        rfl
      · rw [if_neg hs]
        rfl
  · decide

/-- Witness for C9: an unknown profile name yields the default. -/
theorem c9_unknown_profile_fallback_witness :
    (mkSession none (some "no_such_browser") false [] none [] "rotate" 2 1 (0.3 : ℚ)
        none none [] [] none 0 (fun _ => 0)).profile_name = "chrome_120" := by
  have h := (c9_unknown_profile_fallback none (some "no_such_browser") false [] none []
    "rotate" 2 1 (0.3 : ℚ) none none [] [] none 0 (fun _ => 0)).1
  rw [h]
  decide

theorem applySitePreset_cloudflare (st : SessionState) :
    (applySitePreset st "cloudflare").max_retries = max st.max_retries 3 ∧
    (applySitePreset st "cloudflare").retry_backoff_base =
      min st.retry_backoff_base (0.8 : ℚ) ∧
    (applySitePreset st "cloudflare").retry_jitter = max st.retry_jitter (0.4 : ℚ) ∧
    (applySitePreset st "cloudflare").rotate_profiles =
      (if st.rotate_profiles = [] then ["chrome_124", "chrome_120", "mobile_safari_17"]
       else st.rotate_profiles) ∧
    (applySitePreset st "cloudflare").http2 =
      (if st.http2 = none then some true else st.http2) ∧
    (applySitePreset st "cloudflare").header_order =
      (if st.header_order = [] then
        ["User-Agent", "Accept", "Accept-Language", "Accept-Encoding", "Connection"]
       else st.header_order) := by
  simp only [applySitePreset]
  rw [if_pos (show pyLower "cloudflare" = "cloudflare" by decide)]
  by_cases h1 : st.rotate_profiles = [] <;>
    simp only [h1, if_pos, if_neg, reduceIte] <;>
    by_cases h2 : st.http2 = none <;>
    by_cases h3 : st.header_order = [] <;>
    simp [h1, h2, h3]

theorem initSessionHeadersFields (st : SessionState) (d : Int) (sw : Nat → Nat) :
    (initSessionHeaders st d sw).rotate_profiles = st.rotate_profiles ∧
    (initSessionHeaders st d sw).http2 = st.http2 ∧
    (initSessionHeaders st d sw).header_order = st.header_order ∧
    (initSessionHeaders st d sw).retry_backoff_base = st.retry_backoff_base ∧
    (initSessionHeaders st d sw).retry_jitter = st.retry_jitter :=
  ⟨rfl, rfl, rfl, rfl, rfl⟩

/-- C5 counterexample: the "cloudflare" preset overrides a caller-supplied
`max_retries` of 1, raising it to 3 — preset application is not limited to
fields the caller left unset. -/
theorem c5_counterexample :
    (mkSession none (some "chrome_120") false [] none [] "rotate" 1 1 (0.3 : ℚ) none
      (some "cloudflare") [] [] none 0 (fun _ => 0)).max_retries = 3 ∧
    (3 : Int) ≠ 1 := by
  constructor
  · rfl
  · decide

/-- C5 (amended): the "cloudflare" preset preserves a caller-supplied
rotation list, HTTP/2 toggle and header-order list, but unconditionally
clamps the retry policy: `max_retries` to at least 3, the backoff base to at
most 0.8 and the jitter bound to at least 0.4, altering caller-supplied
values outside those ranges. -/
theorem c5_site_preset_clamps (st : SessionState) :
    (st.rotate_profiles ≠ [] →
      (applySitePreset st "cloudflare").rotate_profiles = st.rotate_profiles) ∧
    (st.http2 ≠ none → (applySitePreset st "cloudflare").http2 = st.http2) ∧
    (st.header_order ≠ [] →
      (applySitePreset st "cloudflare").header_order = st.header_order) ∧
    (applySitePreset st "cloudflare").max_retries = max st.max_retries 3 ∧
    (applySitePreset st "cloudflare").retry_backoff_base =
      min st.retry_backoff_base (0.8 : ℚ) ∧
    (applySitePreset st "cloudflare").retry_jitter = max st.retry_jitter (0.4 : ℚ) := by
  have h := applySitePreset_cloudflare st
  refine ⟨?_, ?_, ?_, h.1, h.2.1, h.2.2.1⟩
  · intro hrot
    rw [h.2.2.2.1, if_neg hrot]
  · intro hh2
    rw [h.2.2.2.2.1, if_neg hh2]
  · intro hho
    rw [h.2.2.2.2.2, if_neg hho]

def c5TestState : SessionState :=
  { profile_name := "chrome_120"
    randomize := false
    headers := []
    proxies := none
    rotate_profiles := ["firefox_120"]
    on_block := "rotate"
    max_retries := 1
    retry_backoff_base := 1
    retry_jitter := 0
    block_detector := none
    proxies_pool := []
    header_order := ["Accept"]
    http2 := some false
    rotate_index := -1
    proxy_index := -1 }

/-- Witness for C5 (amended) at a concrete state. -/
theorem c5_site_preset_clamps_witness :
    (applySitePreset c5TestState "cloudflare").rotate_profiles = ["firefox_120"] ∧
    (applySitePreset c5TestState "cloudflare").http2 = some false ∧
    (applySitePreset c5TestState "cloudflare").header_order = ["Accept"] ∧
    (applySitePreset c5TestState "cloudflare").max_retries = 3 := by
  have h := c5_site_preset_clamps c5TestState
  refine ⟨h.1 (by decide), h.2.1 (by decide), h.2.2.1 (by decide), ?_⟩
  rw [h.2.2.2.1]
  decide

/-- C6 counterexample: `__init__` always sets both cursors to -1, even when
a non-empty proxy pool and rotation list are configured. -/
theorem c6_counterexample :
    (mkSession none (some "chrome_120") false [] none ["chrome_124"] "rotate" 2 1 (0.3 : ℚ)
      none none ["p1"] [] none 0 (fun _ => 0)).proxy_index = -1 ∧
    (mkSession none (some "chrome_120") false [] none ["chrome_124"] "rotate" 2 1 (0.3 : ℚ)
      none none ["p1"] [] none 0 (fun _ => 0)).rotate_index = -1 ∧
    (mkSession none (some "chrome_120") false [] none ["chrome_124"] "rotate" 2 1 (0.3 : ℚ)
      none none ["p1"] [] none 0 (fun _ => 0)).proxies_pool = ["p1"] ∧
    (mkSession none (some "chrome_120") false [] none ["chrome_124"] "rotate" 2 1 (0.3 : ℚ)
      none none ["p1"] [] none 0 (fun _ => 0)).rotate_profiles = ["chrome_124"] :=
  ⟨rfl, rfl, rfl, rfl⟩

theorem mkSession_cursors (fingerprint profile : Option String) (randomize : Bool)
    (headers : PyDict) (proxies : Option String) (rot : List String) (ob : String)
    (mr : Int) (bb jit : ℚ) (det : Option (Response → Option Bool)) (site : Option String)
    (pool ho : List String) (h2 : Option Bool) (d0 : Int) (sw0 : Nat → Nat) :
    (mkSession fingerprint profile randomize headers proxies rot ob mr bb jit det site
      pool ho h2 d0 sw0).rotate_index = -1 ∧
    (mkSession fingerprint profile randomize headers proxies rot ob mr bb jit det site
      pool ho h2 d0 sw0).proxy_index = -1 := by
  simp only [mkSession]
  rcases site with _ | s
  · exact ⟨rfl, rfl⟩
  · dsimp only
    by_cases hs : s ≠ ""
    · rw [if_pos hs]
      have hp := applySitePreset_pres
        { profile_name :=
            if profileExists (strOr profile (strOr fingerprint DEFAULT_PROFILE)) then
              strOr profile (strOr fingerprint DEFAULT_PROFILE)
            else DEFAULT_PROFILE
          randomize := randomize
          headers := headers
          proxies := proxies
          rotate_profiles := rot
          on_block := ob
          max_retries := mr
          retry_backoff_base := bb
          retry_jitter := jit
          block_detector := det
          proxies_pool := pool
          header_order := ho
          http2 := h2
          rotate_index := -1
          proxy_index := -1 } s
      exact ⟨((initSessionHeaders_pres _ _ _).2.2.2.1).trans (hp.1.trans rfl),
        ((initSessionHeaders_pres _ _ _).2.2.2.2.1).trans (hp.2.1.trans rfl)⟩
    · rw [if_neg hs]
      exact ⟨rfl, rfl⟩

/-- A cursor is either the uninitialized -1 or a valid index into a list of
length `n`. -/
def cursorOk (idx : Int) (n : Nat) : Prop :=
  idx = -1 ∨ (0 ≤ idx ∧ idx < (n : Int))

/-- Session states reachable through the client's state-changing operations:
construction, profile rotation, proxy rotation, the proxy-cursor read (which
normalizes a negative cursor), the proxy assignment done on retry, WAF
adaptation, and session re-initialization. -/
inductive ReachableSession : SessionState → Prop where
  | construct (fingerprint profile : Option String) (randomize : Bool) (headers : PyDict)
      (proxies : Option String) (rot : List String) (ob : String) (mr : Int) (bb jit : ℚ)
      (det : Option (Response → Option Bool)) (site : Option String) (pool ho : List String)
      (h2 : Option Bool) (d0 : Int) (sw0 : Nat → Nat) :
      ReachableSession (mkSession fingerprint profile randomize headers proxies rot ob mr
        bb jit det site pool ho h2 d0 sw0)
  | profileRotation (st : SessionState) (pick : Nat) : ReachableSession st →
      ReachableSession (rotateProfile st pick)
  | proxyRotation (st : SessionState) : ReachableSession st →
      ReachableSession (rotateProxy st)
  | proxyRead (st : SessionState) : ReachableSession st →
      ReachableSession (currentProxy st).1
  | proxyAssign (st : SessionState) (p : Option String) : ReachableSession st →
      ReachableSession { st with proxies := p }
  | wafAdaptation (st : SessionState) (r : Response) (pick : Nat) (d : Int) (sw : Nat → Nat) :
      ReachableSession st → ReachableSession (wafAdapt st r pick d sw)
  | sessionReinit (st : SessionState) (d : Int) (sw : Nat → Nat) : ReachableSession st →
      ReachableSession (initSessionHeaders st d sw)

/-- C6 (amended): in every reachable session state each cursor is either a
valid index into its list or -1; but -1 also occurs with a non-empty list
(every freshly constructed session has both cursors -1, see the
counterexample), so -1 is not reserved for the empty/absent case. -/
theorem c6_cursor_invariant (st : SessionState) (h : ReachableSession st) :
    cursorOk st.rotate_index st.rotate_profiles.length ∧
    cursorOk st.proxy_index st.proxies_pool.length := by
  induction h with
  | construct fp pr rz hs px rot ob mr bb jit det site pool ho h2 d0 sw0 =>
    have hc := mkSession_cursors fp pr rz hs px rot ob mr bb jit det site pool ho h2 d0 sw0
    exact ⟨Or.inl hc.1, Or.inl hc.2⟩
  | profileRotation st pick hst ih =>
    rw [rotateProfile]
    by_cases h1 : st.rotate_profiles ≠ []
    · rw [if_pos h1]
      dsimp only
      have hlen : 0 < st.rotate_profiles.length := List.length_pos.mpr h1
      have hz : (st.rotate_profiles.length : Int) ≠ 0 := by
        exact_mod_cast Nat.pos_iff_ne_zero.mp hlen
      refine ⟨Or.inr ⟨Int.emod_nonneg _ hz, Int.emod_lt_of_pos _ (by exact_mod_cast hlen)⟩,
        ih.2⟩
    · rw [if_neg h1]
      dsimp only
      by_cases h2 : rotateChoices st = []
      · rw [if_pos h2]
        exact ih
      · rw [if_neg h2]
        exact ih
  | proxyRotation st hst ih =>
    rw [rotateProxy]
    by_cases h1 : st.proxies_pool = []
    · rw [if_pos h1]
      exact ih
    · rw [if_neg h1]
      dsimp only
      have hlen : 0 < st.proxies_pool.length := List.length_pos.mpr h1
      have hz : (st.proxies_pool.length : Int) ≠ 0 := by
        exact_mod_cast Nat.pos_iff_ne_zero.mp hlen
      exact ⟨ih.1, Or.inr ⟨Int.emod_nonneg _ hz, Int.emod_lt_of_pos _ (by exact_mod_cast hlen)⟩⟩
  | proxyRead st hst ih =>
    rw [currentProxy]
    by_cases h1 : st.proxies_pool ≠ []
    · rw [if_pos h1]
      by_cases h2 : st.proxy_index < 0
      · rw [if_pos h2]
        dsimp only
        exact ⟨ih.1, Or.inr ⟨le_refl 0, by exact_mod_cast List.length_pos.mpr h1⟩⟩
      · rw [if_neg h2]
        exact ih
    · rw [if_neg h1]
      exact ih
  | proxyAssign st p hst ih =>
    exact ih
  | wafAdaptation st r pick d sw hst ih =>
    have hw := wafAdapt_pres st r pick d sw
    show cursorOk (wafAdapt st r pick d sw).rotate_index
        (wafAdapt st r pick d sw).rotate_profiles.length ∧
      cursorOk (wafAdapt st r pick d sw).proxy_index
        (wafAdapt st r pick d sw).proxies_pool.length
    rw [hw.2.2.2.1, hw.2.2.2.2.1, hw.2.2.2.2.2.1, hw.2.2.2.2.2.2]
    exact ih
  | sessionReinit st d sw hst ih =>
    exact ih

/-- Witness for C6 (amended) at a concrete constructed state. -/
theorem c6_cursor_invariant_witness :
    cursorOk (mkSession none (some "chrome_120") false [] none ["chrome_124"] "rotate" 2 1
        (0.3 : ℚ) none none ["p1"] [] none 0 (fun _ => 0)).rotate_index
      (mkSession none (some "chrome_120") false [] none ["chrome_124"] "rotate" 2 1
        (0.3 : ℚ) none none ["p1"] [] none 0 (fun _ => 0)).rotate_profiles.length ∧
    cursorOk (mkSession none (some "chrome_120") false [] none ["chrome_124"] "rotate" 2 1
        (0.3 : ℚ) none none ["p1"] [] none 0 (fun _ => 0)).proxy_index
      (mkSession none (some "chrome_120") false [] none ["chrome_124"] "rotate" 2 1
        (0.3 : ℚ) none none ["p1"] [] none 0 (fun _ => 0)).proxies_pool.length :=
  c6_cursor_invariant _ (ReachableSession.construct none (some "chrome_120") false [] none
    ["chrome_124"] "rotate" 2 1 (0.3 : ℚ) none none ["p1"] [] none 0 (fun _ => 0))

/-- C4 counterexample: with no rotation list, `_rotate_profile`'s random
branch draws from the 5-entry legacy `PROFILES` table, not from the full
fingerprint catalog: the gallery profile "chrome_125_win11" differs from the
current profile yet is not among the candidates. -/
theorem c4_counterexample :
    "chrome_125_win11" ∈ galleryNames ∧
    rotateChoices (mkSession none (some "chrome_120") false [] none [] "rotate" 2 1 (0.3 : ℚ)
      none none [] [] none 0 (fun _ => 0)) =
      ["chrome_124", "firefox_120", "mobile_safari_17", "ios_safari_17"] ∧
    "chrome_125_win11" ∉ ["chrome_124", "firefox_120", "mobile_safari_17", "ios_safari_17"] ∧
    "chrome_125_win11" ≠
      (mkSession none (some "chrome_120") false [] none [] "rotate" 2 1 (0.3 : ℚ)
        none none [] [] none 0 (fun _ => 0)).profile_name := by
  refine ⟨by decide, by decide, by decide, by decide⟩

/-- C4 (amended): with no rotation list, the rotated-to profile is always one
of the legacy `PROFILES` names minus the current profile (not the full
catalog), and every such candidate is realizable by some random draw. -/
theorem c4_rotate_fallback (st : SessionState) (pick : Nat)
    (hrot : st.rotate_profiles = []) (hne : rotateChoices st ≠ []) :
    (rotateProfile st pick).profile_name ∈ rotateChoices st ∧
    rotateChoices st = legacyNames.filter (fun n => n != st.profile_name) ∧
    (∀ c ∈ rotateChoices st, ∃ q : Nat, (rotateProfile st q).profile_name = c) := by
  have h1 : ∀ q : Nat, (rotateProfile st q).profile_name =
      (rotateChoices st).getD (q % (rotateChoices st).length) "" := by
    intro q
    rw [rotateProfile, if_neg (by rw [hrot]; exact not_not_intro rfl), if_neg hne]
  have hlen : 0 < (rotateChoices st).length := List.length_pos.mpr hne
  refine ⟨?_, rfl, ?_⟩
  · rw [h1 pick]
    have hlt : pick % (rotateChoices st).length < (rotateChoices st).length :=
      Nat.mod_lt _ hlen
    rw [List.getD_eq_getElem?_getD, List.getElem?_eq_getElem hlt, Option.getD_some]
    exact List.getElem_mem _
  · intro c hc
    obtain ⟨i, hilt, hieq⟩ := List.getElem_of_mem hc
    refine ⟨i, ?_⟩
    rw [h1 i, Nat.mod_eq_of_lt hilt, List.getD_eq_getElem?_getD,
      List.getElem?_eq_getElem hilt, Option.getD_some, hieq]

def c4TestState : SessionState :=
  mkSession none (some "chrome_120") false [] none [] "rotate" 2 1 (0.3 : ℚ)
    none none [] [] none 0 (fun _ => 0)

/-- Witness for C4 (amended) at a concrete state. -/
theorem c4_rotate_fallback_witness :
    (rotateProfile c4TestState 0).profile_name ∈ rotateChoices c4TestState ∧
    rotateChoices c4TestState =
      legacyNames.filter (fun n => n != c4TestState.profile_name) := by
  have h := c4_rotate_fallback c4TestState 0 (by decide) (by decide)
  exact ⟨h.1, h.2.1⟩

theorem c1LoopStepEq (transport : Nat → Except Nat Response) (orc : Oracle)
    (resp : Nat → Response) (det : Option (Response → Option Bool))
    (htr : ∀ i, transport i = .ok (resp i))
    (hblk : ∀ r : Response, isBlock det (some r) = true)
    (st' : SessionState) (attempt : Nat)
    (h1 : st'.on_block = "rotate") (h2 : st'.max_retries = 2)
    (h3 : st'.block_detector = det) :
    loopStep transport orc attempt st' =
      if (attempt : Int) ≥ 2 then .error (.returned (some (resp attempt)))
      else .ok (loopRotate orc attempt (wafAdapt (currentProxy st').1 (resp attempt)
        (orc.wafPick attempt) (orc.wafDelta attempt) (orc.wafSwaps attempt))) := by
  have hp := currentProxy_pres st'
  have hw := wafAdapt_pres (currentProxy st').1 (resp attempt) (orc.wafPick attempt)
    (orc.wafDelta attempt) (orc.wafSwaps attempt)
  have hbt : isBlock (wafAdapt (currentProxy st').1 (resp attempt) (orc.wafPick attempt)
      (orc.wafDelta attempt) (orc.wafSwaps attempt)).block_detector
      (some (resp attempt)) = true := by
    rw [hw.2.2.1, hp.2.2.1, h3]
    exact hblk _
  have hob : (wafAdapt (currentProxy st').1 (resp attempt) (orc.wafPick attempt)
      (orc.wafDelta attempt) (orc.wafSwaps attempt)).on_block = "rotate" := by
    rw [hw.2.1, hp.2.1, h1]
  have hmr : (wafAdapt (currentProxy st').1 (resp attempt) (orc.wafPick attempt)
      (orc.wafDelta attempt) (orc.wafSwaps attempt)).max_retries = 2 := by
    rw [hw.1, hp.1, h2]
  simp only [loopStep, htr attempt]
  by_cases hc : (attempt : Int) ≥ 2
  · rw [if_pos (Or.inr (Or.inr (by rw [hmr]; exact hc))), if_pos hc]
  · rw [if_neg (show ¬_ by
      rintro (ha | hb | hcge)
      · rw [hbt] at ha
        cases ha
      · rw [hob] at hb
        exact absurd hb (by decide)
      · rw [hmr] at hcge
        exact hc hcge), if_neg hc]

theorem c1Loop (transport : Nat → Except Nat Response) (orc : Oracle)
    (resp : Nat → Response) (det : Option (Response → Option Bool))
    (htr : ∀ i, transport i = .ok (resp i))
    (hblk : ∀ r : Response, isBlock det (some r) = true) :
    ∀ (k : Nat) (st' : SessionState) (attempt : Nat) (rh : PyDict),
      st'.on_block = "rotate" → st'.max_retries = 2 → st'.block_detector = det →
      2 - attempt = k → attempt ≤ 2 →
      requestLoop transport orc st' rh attempt =
        (.returned (some (resp 2)), List.replicate (3 - attempt) rh) := by
  intro k
  induction k with
  | zero =>
    intro st' attempt rh h1 h2 h3 hk hle
    have ha : attempt = 2 := by omega
    subst ha
    have hs := c1LoopStepEq transport orc resp det htr hblk st' 2 h1 h2 h3
    rw [if_pos (by norm_num)] at hs
    rw [requestLoop]
    split
    · rename_i out heq
      rw [hs] at heq
      cases heq
      rfl
    · rename_i st3 heq
      rw [hs] at heq
      cases heq
  | succ n ih =>
    intro st' attempt rh h1 h2 h3 hk hle
    have hlt : attempt < 2 := by omega
    have hs := c1LoopStepEq transport orc resp det htr hblk st' attempt h1 h2 h3
    rw [if_neg (show ¬((attempt : Int) ≥ 2) by exact_mod_cast Nat.not_le.mpr hlt)] at hs
    rw [requestLoop]
    split
    · rename_i out heq
      rw [hs] at heq
      cases heq
    · rename_i st3 heq
      rw [hs] at heq
      have hst3 : st3 = loopRotate orc attempt (wafAdapt (currentProxy st').1 (resp attempt)
          (orc.wafPick attempt) (orc.wafDelta attempt) (orc.wafSwaps attempt)) :=
        (Except.ok.inj heq).symm
      have hlr := loopRotate_pres orc attempt (wafAdapt (currentProxy st').1 (resp attempt)
        (orc.wafPick attempt) (orc.wafDelta attempt) (orc.wafSwaps attempt))
      have hw := wafAdapt_pres (currentProxy st').1 (resp attempt) (orc.wafPick attempt)
        (orc.wafDelta attempt) (orc.wafSwaps attempt)
      have hp := currentProxy_pres st'
      have h1' : st3.on_block = "rotate" := by
        rw [hst3, hlr.2.1, hw.2.1, hp.2.1, h1]
      have h2' : st3.max_retries = 2 := by
        rw [hst3, hlr.1, hw.1, hp.1, h2]
      have h3' : st3.block_detector = det := by
        rw [hst3, hlr.2.2, hw.2.2.1, hp.2.2.1, h3]
      rw [ih st3 (attempt + 1) rh h1' h2' h3' (by omega) (by omega)]
      have hrep : 3 - attempt = (3 - (attempt + 1)) + 1 := by omega
      rw [hrep, List.replicate_succ]

/-- C1: for a session with `on_block = "rotate"` and `max_retries = 2`, when
the transport always delivers a response and every response is classified as
blocked (e.g. a caller-supplied block predicate that always reports blocked),
`request` makes exactly 3 transport attempts — one entry in the trace of
header mappings per attempt — and returns the last (third) response to the
caller instead of raising. -/
theorem c1_rotate_three_attempts (transport : Nat → Except Nat Response) (orc : Oracle)
    (st : SessionState) (kwargsHeaders : PyDict) (resp : Nat → Response)
    (hpol : st.on_block = "rotate") (hmr : st.max_retries = 2)
    (htr : ∀ i, transport i = .ok (resp i))
    (hblk : ∀ r : Response, isBlock st.block_detector (some r) = true) :
    (request transport orc st kwargsHeaders).1 = .returned (some (resp 2)) ∧
    (request transport orc st kwargsHeaders).2.length = 3 := by
  have h := c1Loop transport orc resp st.block_detector htr hblk 2 st 0
    (morphHeaders st.headers st.header_order kwargsHeaders (getProfile st.profile_name))
    hpol hmr rfl rfl (by omega)
  constructor
  · show (requestLoop transport orc st (morphHeaders st.headers st.header_order
      kwargsHeaders (getProfile st.profile_name)) 0).1 = _
    rw [h]
  · show (requestLoop transport orc st (morphHeaders st.headers st.header_order
      kwargsHeaders (getProfile st.profile_name)) 0).2.length = 3
    rw [h]
    simp

def c1TestState : SessionState :=
  mkSession none (some "chrome_120") false [] none [] "rotate" 2 1 (0.3 : ℚ)
    (some (fun _ => some true)) none [] [] none 0 (fun _ => 0)

/-- Witness for C1 at a concrete session, transport and block predicate. -/
theorem c1_rotate_three_attempts_witness :
    (request (fun _ => .ok ⟨some 403, "x", []⟩)
      ⟨fun _ => 0, fun _ => 0, fun _ _ => 0, fun _ => 0, fun _ => 0, fun _ _ => 0⟩
      c1TestState []).1 = .returned (some ⟨some 403, "x", []⟩) ∧
    (request (fun _ => .ok ⟨some 403, "x", []⟩)
      ⟨fun _ => 0, fun _ => 0, fun _ _ => 0, fun _ => 0, fun _ => 0, fun _ _ => 0⟩
      c1TestState []).2.length = 3 :=
  c1_rotate_three_attempts (fun _ => .ok ⟨some 403, "x", []⟩)
    ⟨fun _ => 0, fun _ => 0, fun _ _ => 0, fun _ => 0, fun _ => 0, fun _ _ => 0⟩
    c1TestState [] (fun _ => ⟨some 403, "x", []⟩) rfl rfl (fun _ => rfl) (fun _ => rfl)

theorem requestLoopTrace (transport : Nat → Except Nat Response) (orc : Oracle) :
    ∀ (fuel : Nat) (st' : SessionState) (attempt : Nat) (rh : PyDict),
      (st'.max_retries + 1 - (attempt : Int)).toNat ≤ fuel →
      ∀ x ∈ (requestLoop transport orc st' rh attempt).2, x = rh := by
  intro fuel
  induction fuel with
  | zero =>
    intro st' attempt rh hf x hx
    rw [requestLoop] at hx
    revert hx
    split
    · intro hx
      rcases List.mem_singleton.mp hx with rfl
      rfl
    · rename_i st3 heq
      have h := loopStep_ok transport orc attempt st' st3 heq
      omega
  | succ n ih =>
    intro st' attempt rh hf x hx
    rw [requestLoop] at hx
    revert hx
    split
    · intro hx
      rcases List.mem_singleton.mp hx with rfl
      rfl
    · rename_i st3 heq
      intro hx
      rcases List.mem_cons.mp hx with rfl | hx'
      · rfl
      · have h := loopStep_ok transport orc attempt st' st3 heq
        exact ih st3 (attempt + 1) rh (by omega) x hx'

/-- C10: within one `request` call the header mapping sent to the transport
is computed exactly once, before the retry loop, by morphing with the profile
named at call entry (`getProfile st.profile_name`, not the randomized variant
applied at session initialization); the trace of per-attempt header mappings
is constant — every attempt, including those after a profile rotation, reuses
that same mapping unchanged. -/
theorem c10_headers_morphed_once (transport : Nat → Except Nat Response) (orc : Oracle)
    (st : SessionState) (kwargsHeaders : PyDict) :
    (request transport orc st kwargsHeaders).2 =
      List.replicate (request transport orc st kwargsHeaders).2.length
        (morphHeaders st.headers st.header_order kwargsHeaders
          (getProfile st.profile_name)) := by
  apply List.eq_replicate_of_mem
  intro b hb
  exact requestLoopTrace transport orc ((st.max_retries + 1 - (0 : Int)).toNat) st 0
    (morphHeaders st.headers st.header_order kwargsHeaders (getProfile st.profile_name))
    (le_refl _) b hb
